import Mathlib

/-! Dashboard poll-render loop and todo escaping.

A shallow embedding of `src/dashboard/app.js` (the poll-render loop, its
render functions and its click and submit handlers) and of `escapeHtml` /
`renderTodo` from `src/apps/html/todo_app/app.js`.

Modelling conventions.

* The page is a record `Page` holding the text of every label the script
  writes, the child rows of the four lists, the three form fields, the
  in-memory flag `state.watchersRunning`, and the list of HTTP requests issued
  so far (oldest first).
* Every function of the script becomes a function `Page → Page`.  The two
  inputs the script reads from outside, the wall clock (`nowLabel`) and the
  network (`fetch`), are explicit arguments: a `Reply` carries what the
  transport did and the clock label at the moment the request settled.
* The functions `refresh` and `click...` give the page a handler leaves when
  nothing else runs before it has finished.  The section on suspended calls
  splits every `async` function at its `await`s: requests settle in any order,
  so cycles and handlers overlap, and a run is a sequence of events over the
  page and the suspended calls.  A call that runs unbroken leaves the page of
  its function (`run_cycle_unbroken` and the lemmas after it).
* Response bodies have the shapes of the interface contract (summary
  `claude_running`, lists `items`, logs `lines`, actions `ok`).
-/

namespace Dashboard

/-! ## Document model -/

/-- Content of an element: set through `textContent`, or through `innerHTML`
with a markup string built by the script. -/
inductive Body where
  | text (s : String)
  | html (markup : String)
  deriving DecidableEq, Repr

/-- One child element of a list (`li` or `p`). -/
structure Row where
  tag : String
  className : String
  body : Body
  deriving DecidableEq, Repr

/-- Body sent with a request.  `JSON.stringify` is not modelled: the payload
keeps the fields that are serialised. -/
inductive Payload where
  | none
  | emptyObject
  | newTask (title type body : String)
  | path (path : String)
  | newClaudeTask (language name instruction : String)
  deriving DecidableEq, Repr

/-- An HTTP request handed to `fetch`. -/
structure Request where
  method : String
  path : String
  body : Payload
  deriving DecidableEq, Repr

/-- The second argument of `fetchJSON`; the default `{}` is a GET without body. -/
structure Options where
  method : String := "GET"
  body : Payload := Payload.none
  deriving DecidableEq, Repr

/-- Everything the script reads or writes. -/
structure Page where
  lastSync : String
  watcherStatus : String
  orchestratorStatus : String
  claudeStatus : String
  agentStatus : String
  agentOnline : Bool
  workLog : List Row
  claudeLog : List Row
  taskList : List Row
  approvalList : List Row
  metricTasks : String
  metricApprovals : String
  appLanguage : String
  appName : String
  appInstruction : String
  appStatus : String
  appStatusColor : String
  watchersRunning : Bool
  requests : List Request
  deriving DecidableEq, Repr

/-! ## Responses -/

/-- Modelled from the spec: an entry of a task or approval list, the three
strings `path`, `title` and `type` that the render functions read (the backend
that produces them is not part of the sources). -/
structure Item where
  path : String
  title : String
  type : String
  deriving DecidableEq, Repr

/-- Modelled from the spec: the body of `GET /api/summary`, an object with the
boolean `claude_running`. -/
structure Summary where
  claude_running : Bool
  deriving DecidableEq, Repr

/-- Modelled from the spec: the body of `GET /api/tasks` and of
`GET /api/approvals`, an object with the list `items`. -/
structure ItemList where
  items : List Item
  deriving DecidableEq, Repr

/-- Modelled from the spec: the body of `GET /api/logs` and of
`GET /api/claude/logs`, an object with the list of strings `lines`. -/
structure LogLines where
  lines : List String
  deriving DecidableEq, Repr

/-- Modelled from the spec: the body of `POST /api/claude/start` and of
`POST /api/claude/stop`, of which the handlers read the boolean `ok`. -/
structure Ack where
  ok : Bool
  deriving DecidableEq, Repr

/-- Modelled from the spec: the body of `GET /api/vault-path`, of which the
handler reads the string `vault`, which may be missing. -/
structure VaultInfo where
  vault : Option String
  deriving DecidableEq, Repr

/-- Modelled from the spec: the body of `POST /api/new-claude-task`, the
boolean `ok` and the strings `path` and `error`, which may be missing. -/
structure CreateResult where
  ok : Bool
  path : Option String
  error : Option String
  deriving DecidableEq, Repr

/-- What `fetch` resolved to: the `ok` flag of the status and the outcome of
`response.json()`, which either throws or yields the parsed body. -/
structure Response (α : Type) where
  ok : Bool
  json : Except String α

/-- One settled request: `wire` is the outcome of `fetch` (a rejection or a
response), `clock` is what `nowLabel()` returns at that moment. -/
structure Reply (α : Type) where
  clock : String
  wire : Except String (Response α)

/-! ## The script -/

/-- The `p` element `logLine` creates: the message behind its time stamp.
`now` is the value of `nowLabel()`. -/
def logRow (now message : String) : Row :=
  ⟨"p", "", Body.text ("[" ++ now ++ "] " ++ message)⟩

/-- Source `logLine`: the new `p` is put in front of the work log. -/
def logLine (now message : String) (s : Page) : Page :=
  { s with workLog := logRow now message :: s.workLog }

/-- The `try` block of `fetchJSON`: any of its three steps may throw. -/
def tryFetch {α : Type} (wire : Except String (Response α)) : Except String α :=
  match wire with
  | Except.error e => Except.error e
  | Except.ok response =>
    if !response.ok then Except.error "request failed" else response.json

/-- Source `fetchJSON`: the request is issued, and whatever the `try` block
throws is caught, logged and turned into `null` (`none`). -/
def fetchJSON {α : Type} (path : String) (options : Options) (r : Reply α) (s : Page) :
    Option α × Page :=
  let s1 := { s with requests := s.requests ++ [⟨options.method, path, options.body⟩] }
  match tryFetch r.wire with
  | Except.ok body => (some body, s1)
  | Except.error _ => (none, logLine r.clock ("API error: " ++ path) s1)

/-- Source `updateCounts`. -/
def updateCounts (tasks approvals : List Item) (s : Page) : Page :=
  { s with metricTasks := toString tasks.length, metricApprovals := toString approvals.length }

/-- Source `updateSync`. -/
def updateSync (now : String) (s : Page) : Page :=
  { s with lastSync := now }

/-- Source `updateWatcherState`. -/
def updateWatcherState (running : Bool) (s : Page) : Page :=
  { s with
    watchersRunning := running
    watcherStatus := if running then "Running" else "Idle"
    agentStatus := if running then "Local Active" else "Local Ready"
    agentOnline := true }

/-- Assigning the empty string to `innerHTML` removes every child. -/
def clearChildren (_children : List Row) : List Row :=
  []

/-- The method `appendChild` on the children of a list. -/
def appendChild (children : List Row) (row : Row) : List Row :=
  children ++ [row]

/-- The `li` built for one task: its `innerHTML` is the template literal of the
source, white space included. -/
def taskRow (item : Item) : Row :=
  ⟨"li", "list-item", Body.html (
    "\n      <label>\n        <input type=\"checkbox\" class=\"task-item\" data-path=\""
      ++ item.path ++ "\" />\n        " ++ item.title
      ++ "\n      </label>\n      <span class=\"chip\">" ++ item.type ++ "</span>\n    ")⟩

/-- Source `renderTasks`, on the children of `taskList`.  The placeholder
markup parses to one `li` of class `list-item empty` holding a text node. -/
def renderTasks (items : List Item) (old : List Row) : List Row :=
  let list := clearChildren old
  if items.length = 0 then
    [⟨"li", "list-item empty", Body.text "No open tasks."⟩]
  else
    items.foldl (fun acc item => appendChild acc (taskRow item)) list

/-- The `li` built for one approval. -/
def approvalRow (item : Item) : Row :=
  ⟨"li", "list-item", Body.html (
    "\n      <div class=\"list-body\">\n        <strong>" ++ item.title
      ++ "</strong>\n        <span class=\"chip warning\">" ++ item.type
      ++ "</span>\n      </div>\n      <div class=\"list-actions\">\n        <button class=\"mini-btn approve\" data-path=\""
      ++ item.path
      ++ "\">Approve</button>\n        <button class=\"mini-btn reject\" data-path=\""
      ++ item.path ++ "\">Reject</button>\n      </div>\n    ")⟩

/-- Source `renderApprovals`, on the children of `approvalList`. -/
def renderApprovals (items : List Item) (old : List Row) : List Row :=
  let list := clearChildren old
  if items.length = 0 then
    [⟨"li", "list-item empty", Body.text "No approvals pending."⟩]
  else
    items.foldl (fun acc item => appendChild acc (approvalRow item)) list

/-- Source `renderLogs`, on the children of `workLog`. -/
def renderLogs (lines : List String) (old : List Row) : List Row :=
  let list := clearChildren old
  if lines.length = 0 then
    [⟨"p", "", Body.text "[--:--] No logs yet."⟩]
  else
    lines.reverse.foldl (fun acc line => appendChild acc ⟨"p", "", Body.text line⟩) list

/-- Source `renderClaudeLogs`, on the children of `claudeLog`. -/
def renderClaudeLogs (lines : List String) (old : List Row) : List Row :=
  let list := clearChildren old
  if lines.length = 0 then
    [⟨"p", "", Body.text "[--:--] No Claude logs yet."⟩]
  else
    lines.reverse.foldl (fun acc line => appendChild acc ⟨"p", "", Body.text line⟩) list

/-- Source `setAppStatus`. -/
def setAppStatus (message : String) (ok : Bool) (s : Page) : Page :=
  { s with
    appStatus := message
    appStatusColor := if ok then "var(--mint)" else "var(--accent)" }

/-- The five replies of one `refresh()` cycle and the clock label read by
`updateSync`. -/
structure Cycle where
  summary : Reply Summary
  tasks : Reply ItemList
  approvals : Reply ItemList
  logs : Reply LogLines
  claudeLogs : Reply LogLines
  syncClock : String

/-- The items of a list response, `[]` when the fetch gave `null`
(`tasks?.items ?? []`). -/
def itemsOrEmpty (r : Option ItemList) : List Item :=
  match r with
  | some l => l.items
  | none => []

/-- Source `refresh`: five fetches in sequence, then each panel is written when
its own result is not `null`. -/
def refresh (c : Cycle) (s : Page) : Page :=
  let f1 := fetchJSON "/api/summary" {} c.summary s
  let f2 := fetchJSON "/api/tasks" {} c.tasks f1.2
  let f3 := fetchJSON "/api/approvals" {} c.approvals f2.2
  let f4 := fetchJSON "/api/logs" {} c.logs f3.2
  let f5 := fetchJSON "/api/claude/logs" {} c.claudeLogs f4.2
  let s := f5.2
  let s := match f1.1 with
    | some summary =>
      let s := updateCounts (itemsOrEmpty f2.1) (itemsOrEmpty f3.1) s
      let s := updateSync c.syncClock s
      { s with claudeStatus := if summary.claude_running then "Running" else "Stopped" }
    | none => s
  let s := match f2.1 with
    | some tasks => { s with taskList := renderTasks tasks.items s.taskList }
    | none => s
  let s := match f3.1 with
    | some approvals => { s with approvalList := renderApprovals approvals.items s.approvalList }
    | none => s
  let s := match f4.1 with
    | some logs => { s with workLog := renderLogs logs.lines s.workLog }
    | none => s
  let s := match f5.1 with
    | some claudeLogs => { s with claudeLog := renderClaudeLogs claudeLogs.lines s.claudeLog }
    | none => s
  s

/-! ## Click and submit handlers -/

/-- Source `start-watchers` click handler; the two clock labels are the two
calls of `nowLabel()`. -/
def clickStartWatchers (logClock syncClock : String) (s : Page) : Page :=
  updateSync syncClock (logLine logClock "Watchers started." (updateWatcherState true s))

/-- Source `stop-watchers` click handler. -/
def clickStopWatchers (logClock syncClock : String) (s : Page) : Page :=
  updateSync syncClock (logLine logClock "Watchers stopped." (updateWatcherState false s))

/-- Source `run-orchestrator` click handler. -/
def clickRunOrchestrator (post : Reply Unit) (logClock syncClock : String) (c : Cycle)
    (s : Page) : Page :=
  let s := { s with orchestratorStatus := "Running" }
  let s := (fetchJSON "/api/run-orchestrator" ⟨"POST", Payload.emptyObject⟩ post s).2
  let s := logLine logClock "Orchestrator executed." s
  let s := updateSync syncClock s
  let s := { s with orchestratorStatus := "Ready" }
  refresh c s

/-- Source `new-task` click handler. -/
def clickNewTask (post : Reply Unit) (logClock : String) (c : Cycle) (s : Page) : Page :=
  let s := (fetchJSON "/api/new-task"
    ⟨"POST", Payload.newTask "Draft reply for new inbound Gmail inquiry" "email"
      "Draft a polite reply and request approval before sending."⟩ post s).2
  let s := logLine logClock "New task queued." s
  refresh c s

/-- The element a click inside `approvalList` landed on: its classes and its
`data-path` attribute, if it has one. -/
structure ClickTarget where
  classList : List String
  dataPath : Option String
  deriving DecidableEq, Repr

/-- Source click handler of `approvalList`.  Each of the two POSTs has its own
reply and its own clock label for the line logged after it. -/
def clickApprovalList (target : ClickTarget) (approve : Reply Unit) (approveClock : String)
    (reject : Reply Unit) (rejectClock : String) (c : Cycle) (s : Page) : Page :=
  if !target.classList.contains "mini-btn" then s
  else
    match target.dataPath with
    | none => s
    | some path =>
      if path = "" then s
      else
        let s :=
          if target.classList.contains "approve" then
            logLine approveClock ("Approved: " ++ path)
              (fetchJSON "/api/approve" ⟨"POST", Payload.path path⟩ approve s).2
          else s
        let s :=
          if target.classList.contains "reject" then
            logLine rejectClock ("Rejected: " ++ path)
              (fetchJSON "/api/reject" ⟨"POST", Payload.path path⟩ reject s).2
          else s
        refresh c s

/-- Truthiness of an optional string: present and not empty. -/
def truthy (v : Option String) : Option String :=
  match v with
  | some x => if x = "" then none else some x
  | none => none

/-- Source `open-vault` click handler. -/
def clickOpenVault (get : Reply VaultInfo) (logClock : String) (s : Page) : Page :=
  let f := fetchJSON "/api/vault-path" {} get s
  match f.1 with
  | some data =>
    match truthy data.vault with
    | some vault => logLine logClock ("Vault path: " ++ vault) f.2
    | none => f.2
  | none => f.2

/-- The value of `result?.ok` as a condition. -/
def ackOk (r : Option Ack) : Bool :=
  match r with
  | some a => a.ok
  | none => false

/-- Source `start-claude` click handler. -/
def clickStartClaude (post : Reply Ack) (logClock : String) (s : Page) : Page :=
  let f := fetchJSON "/api/claude/start" ⟨"POST", Payload.emptyObject⟩ post s
  if ackOk f.1 then
    { logLine logClock "Claude started." f.2 with claudeStatus := "Running" }
  else
    logLine logClock "Claude start failed." f.2

/-- Source `stop-claude` click handler. -/
def clickStopClaude (post : Reply Ack) (logClock : String) (s : Page) : Page :=
  let f := fetchJSON "/api/claude/stop" ⟨"POST", Payload.emptyObject⟩ post s
  if ackOk f.1 then
    { logLine logClock "Claude stopped." f.2 with claudeStatus := "Stopped" }
  else
    logLine logClock "Claude stop failed." f.2

/-- White space and line terminators, the code points `String.prototype.trim`
removes. -/
def isTrimChar (c : Char) : Bool :=
  let n := c.toNat
  n = 0x09 || n = 0x0A || n = 0x0B || n = 0x0C || n = 0x0D || n = 0x20 || n = 0xA0
    || n = 0x1680 || (0x2000 ≤ n && n ≤ 0x200A) || n = 0x2028 || n = 0x2029
    || n = 0x202F || n = 0x205F || n = 0x3000 || n = 0xFEFF

/-- The method `trim` on the characters of a string. -/
def trimChars (l : List Char) : List Char :=
  ((l.dropWhile isTrimChar).reverse.dropWhile isTrimChar).reverse

/-- The method `trim`. -/
def jsTrim (v : String) : String :=
  String.mk (trimChars v.data)

/-- A missing value inside a template literal prints as `undefined`. -/
def interpolate (v : Option String) : String :=
  match v with
  | some x => x
  | none => "undefined"

/-- Source `app-form` submit handler.  `event.preventDefault()` writes nothing
on the page and is left out. -/
def submitAppForm (post : Reply CreateResult) (logClock : String) (s : Page) : Page :=
  let language := jsTrim s.appLanguage
  let name := jsTrim s.appName
  let instruction := jsTrim s.appInstruction
  if language = "" ∨ name = "" then
    setAppStatus "Language and name are required." false s
  else
    let s := setAppStatus "Creating app..." true s
    let f := fetchJSON "/api/new-claude-task"
      ⟨"POST", Payload.newClaudeTask language name instruction⟩ post s
    match f.1 with
    | some result =>
      if result.ok then
        let s := setAppStatus ("Queued task: " ++ interpolate result.path) true f.2
        let s := logLine logClock ("Claude task queued at " ++ interpolate result.path) s
        { s with appName := "", appInstruction := "" }
      else
        match truthy result.error with
        | some e => setAppStatus e false f.2
        | none => setAppStatus "Create app failed." false f.2
    | none => setAppStatus "Create app failed." false f.2

/-- The last three statements of the script.  `refresh()` issues its first
request and suspends, `updateWatcherState(false)` runs, and the cycle finishes
later; the two write disjoint parts of the page, so the cycle is applied
second. -/
def startup (c : Cycle) (s : Page) : Page :=
  refresh c (updateWatcherState false s)

/-! ## Vocabulary of the specification -/

/-- What `fetchJSON` hands back for a reply: the parsed body, or `none` when
the request failed. -/
def got {α : Type} (r : Reply α) : Option α :=
  match tryFetch r.wire with
  | Except.ok body => some body
  | Except.error _ => none

/-- The work-log line `fetchJSON` writes for a failed request. -/
def apiErrorRow (clock path : String) : Row :=
  ⟨"p", "", Body.text ("[" ++ clock ++ "] " ++ ("API error: " ++ path))⟩

/-- The line written for one reply: none when the request succeeded. -/
def errorRows {α : Type} (path : String) (r : Reply α) : List Row :=
  match got r with
  | some _ => []
  | none => [apiErrorRow r.clock path]

/-- The error lines of one cycle, newest first, as they stand in the work log
once the five requests have settled. -/
def Cycle.errorLines (c : Cycle) : List Row :=
  errorRows "/api/claude/logs" c.claudeLogs ++ errorRows "/api/logs" c.logs
    ++ errorRows "/api/approvals" c.approvals ++ errorRows "/api/tasks" c.tasks
    ++ errorRows "/api/summary" c.summary

/-- The five requests of one cycle, in the order they are issued. -/
def refreshRequests : List Request :=
  [⟨"GET", "/api/summary", Payload.none⟩, ⟨"GET", "/api/tasks", Payload.none⟩,
   ⟨"GET", "/api/approvals", Payload.none⟩, ⟨"GET", "/api/logs", Payload.none⟩,
   ⟨"GET", "/api/claude/logs", Payload.none⟩]

/-- Number of places in a markup string where `<` is followed by the tag name
`name`, letter case ignored. -/
def countOpeners (name : List Char) : List Char → Nat
  | [] => 0
  | c :: rest =>
    (if c = '<' ∧ (rest.map Char.toLower).take name.length = name then 1 else 0)
      + countOpeners name rest

/-- Number of `input` and `button` elements a row brings: the row itself when
it is one, and the tags opened in its markup.  A text node opens none. -/
def Row.controls (r : Row) : Nat :=
  (if r.tag = "input" ∨ r.tag = "button" then 1 else 0)
    + match r.body with
      | Body.text _ => 0
      | Body.html m => countOpeners "input".data m.data + countOpeners "button".data m.data

/-- Number of `input` and `button` elements in a list. -/
def controlsIn (rows : List Row) : Nat :=
  (rows.map Row.controls).sum

/-- The Approve button `renderApprovals` writes for an item of path `path`. -/
def approveButton (path : String) : ClickTarget :=
  ⟨["mini-btn", "approve"], some path⟩

/-- The Reject button `renderApprovals` writes for an item of path `path`. -/
def rejectButton (path : String) : ClickTarget :=
  ⟨["mini-btn", "reject"], some path⟩

/-! ## Suspended calls

A call of an `async` function runs until its next `await`, hands its request
to the network and is suspended; another handler, another timer tick or the
continuation of another suspended call may run before it is resumed.  The
world is the page together with the calls that are suspended. -/

/-- The first half of `fetchJSON`: the call of `fetch` hands the request to the
network. -/
def issue (path : String) (options : Options) (s : Page) : Page :=
  { s with requests := s.requests ++ [⟨options.method, path, options.body⟩] }

/-- The second half of `fetchJSON`, run when the request has settled: the
parsed body, or the `catch` block with its log line and `null`. -/
def receive {α : Type} (path : String) (r : Reply α) (s : Page) : Option α × Page :=
  match tryFetch r.wire with
  | Except.ok body => (some body, s)
  | Except.error _ => (none, logLine r.clock ("API error: " ++ path) s)

/-- The part of `refresh` behind its last `await`: the five `if` blocks, which
run in one piece. -/
def renderCycle (summary : Option Summary) (tasks approvals : Option ItemList)
    (logs claudeLogs : Option LogLines) (syncClock : String) (s : Page) : Page :=
  let s := match summary with
    | some summary =>
      let s := updateCounts (itemsOrEmpty tasks) (itemsOrEmpty approvals) s
      let s := updateSync syncClock s
      { s with claudeStatus := if summary.claude_running then "Running" else "Stopped" }
    | none => s
  let s := match tasks with
    | some tasks => { s with taskList := renderTasks tasks.items s.taskList }
    | none => s
  let s := match approvals with
    | some approvals => { s with approvalList := renderApprovals approvals.items s.approvalList }
    | none => s
  let s := match logs with
    | some logs => { s with workLog := renderLogs logs.lines s.workLog }
    | none => s
  let s := match claudeLogs with
    | some claudeLogs => { s with claudeLog := renderClaudeLogs claudeLogs.lines s.claudeLog }
    | none => s
  s

/-- A suspended call, named after the request it waits for.  A `refresh()`
call carries the results it has collected so far. -/
inductive Pending where
  | summary
  | tasks (summary : Option Summary)
  | approvals (summary : Option Summary) (tasks : Option ItemList)
  | logs (summary : Option Summary) (tasks approvals : Option ItemList)
  | claudeLogs (summary : Option Summary) (tasks approvals : Option ItemList)
      (logs : Option LogLines)
  | runOrchestrator
  | newTask
  | approve (target : ClickTarget) (path : String)
  | reject (path : String)
  | openVault
  | startClaude
  | stopClaude
  | submitApp

/-- What the network answers to a request, by the shape of the body. -/
inductive Answer where
  | summary (r : Reply Summary)
  | items (r : Reply ItemList)
  | lines (r : Reply LogLines)
  | plain (r : Reply Unit)
  | ack (r : Reply Ack)
  | vault (r : Reply VaultInfo)
  | created (r : Reply CreateResult)

/-- The page and the suspended calls. -/
structure World where
  page : Page
  pending : List Pending

/-- A call of `refresh()` up to its first `await`. -/
def beginRefresh (s : Page) : Page × Option Pending :=
  (issue "/api/summary" {} s, some Pending.summary)

/-- The continuation of a suspended call once its request has settled with
answer `a`: the page it leaves and the call suspended next, if any.  An answer
of the wrong shape resumes nothing.  `logClock` and `syncClock` are the values
of `nowLabel()` for the line the continuation logs and for `updateSync`. -/
def resume (p : Pending) (a : Answer) (logClock syncClock : String) (s : Page) :
    Option (Page × Option Pending) :=
  match p, a with
  | Pending.summary, Answer.summary r =>
    let f := receive "/api/summary" r s
    some (issue "/api/tasks" {} f.2, some (Pending.tasks f.1))
  | Pending.tasks sm, Answer.items r =>
    let f := receive "/api/tasks" r s
    some (issue "/api/approvals" {} f.2, some (Pending.approvals sm f.1))
  | Pending.approvals sm t, Answer.items r =>
    let f := receive "/api/approvals" r s
    some (issue "/api/logs" {} f.2, some (Pending.logs sm t f.1))
  | Pending.logs sm t ap, Answer.lines r =>
    let f := receive "/api/logs" r s
    some (issue "/api/claude/logs" {} f.2, some (Pending.claudeLogs sm t ap f.1))
  | Pending.claudeLogs sm t ap l, Answer.lines r =>
    let f := receive "/api/claude/logs" r s
    some (renderCycle sm t ap l f.1 syncClock f.2, none)
  | Pending.runOrchestrator, Answer.plain r =>
    let s := (receive "/api/run-orchestrator" r s).2
    let s := logLine logClock "Orchestrator executed." s
    let s := updateSync syncClock s
    let s := { s with orchestratorStatus := "Ready" }
    some (beginRefresh s)
  | Pending.newTask, Answer.plain r =>
    let s := (receive "/api/new-task" r s).2
    let s := logLine logClock "New task queued." s
    some (beginRefresh s)
  | Pending.approve target path, Answer.plain r =>
    let s := (receive "/api/approve" r s).2
    let s := logLine logClock ("Approved: " ++ path) s
    if target.classList.contains "reject" then
      some (issue "/api/reject" ⟨"POST", Payload.path path⟩ s, some (Pending.reject path))
    else
      some (beginRefresh s)
  | Pending.reject path, Answer.plain r =>
    let s := (receive "/api/reject" r s).2
    let s := logLine logClock ("Rejected: " ++ path) s
    some (beginRefresh s)
  | Pending.openVault, Answer.vault r =>
    let f := receive "/api/vault-path" r s
    match f.1 with
    | some data =>
      match truthy data.vault with
      | some vault => some (logLine logClock ("Vault path: " ++ vault) f.2, none)
      | none => some (f.2, none)
    | none => some (f.2, none)
  | Pending.startClaude, Answer.ack r =>
    let f := receive "/api/claude/start" r s
    if ackOk f.1 then
      some ({ logLine logClock "Claude started." f.2 with claudeStatus := "Running" }, none)
    else
      some (logLine logClock "Claude start failed." f.2, none)
  | Pending.stopClaude, Answer.ack r =>
    let f := receive "/api/claude/stop" r s
    if ackOk f.1 then
      some ({ logLine logClock "Claude stopped." f.2 with claudeStatus := "Stopped" }, none)
    else
      some (logLine logClock "Claude stop failed." f.2, none)
  | Pending.submitApp, Answer.created r =>
    let f := receive "/api/new-claude-task" r s
    match f.1 with
    | some result =>
      if result.ok then
        let s := setAppStatus ("Queued task: " ++ interpolate result.path) true f.2
        let s := logLine logClock ("Claude task queued at " ++ interpolate result.path) s
        some ({ s with appName := "", appInstruction := "" }, none)
      else
        match truthy result.error with
        | some e => some (setAppStatus e false f.2, none)
        | none => some (setAppStatus "Create app failed." false f.2, none)
    | none => some (setAppStatus "Create app failed." false f.2, none)
  | _, _ => none

/-- What can happen: the timer fires, the user clicks a button, submits the
form or types into it, or the request that the suspended call number `i` waits
for settles. -/
inductive Event where
  | tick
  | startWatchers (logClock syncClock : String)
  | stopWatchers (logClock syncClock : String)
  | runOrchestrator
  | newTask
  | approvalClick (target : ClickTarget)
  | openVault
  | startClaude
  | stopClaude
  | submitApp
  | typeFields (language name instruction : String)
  | settle (i : Nat) (a : Answer) (logClock syncClock : String)

/-- The world after a handler has run up to its first `await`. -/
def spawn (w : World) (r : Page × Option Pending) : World :=
  match r.2 with
  | some p => ⟨r.1, w.pending ++ [p]⟩
  | none => ⟨r.1, w.pending⟩

/-- The handler of an event up to its first `await` (the whole handler when it
has none): the page it leaves and the call it suspends. -/
def handle (e : Event) (s : Page) : Page × Option Pending :=
  match e with
  | Event.tick => beginRefresh s
  | Event.startWatchers lc sc => (clickStartWatchers lc sc s, none)
  | Event.stopWatchers lc sc => (clickStopWatchers lc sc s, none)
  | Event.runOrchestrator =>
    (issue "/api/run-orchestrator" ⟨"POST", Payload.emptyObject⟩
      { s with orchestratorStatus := "Running" }, some Pending.runOrchestrator)
  | Event.newTask =>
    (issue "/api/new-task"
      ⟨"POST", Payload.newTask "Draft reply for new inbound Gmail inquiry" "email"
        "Draft a polite reply and request approval before sending."⟩ s, some Pending.newTask)
  | Event.approvalClick target =>
    if !target.classList.contains "mini-btn" then (s, none)
    else
      match target.dataPath with
      | none => (s, none)
      | some path =>
        if path = "" then (s, none)
        else if target.classList.contains "approve" then
          (issue "/api/approve" ⟨"POST", Payload.path path⟩ s, some (Pending.approve target path))
        else if target.classList.contains "reject" then
          (issue "/api/reject" ⟨"POST", Payload.path path⟩ s, some (Pending.reject path))
        else beginRefresh s
  | Event.openVault => (issue "/api/vault-path" {} s, some Pending.openVault)
  | Event.startClaude =>
    (issue "/api/claude/start" ⟨"POST", Payload.emptyObject⟩ s, some Pending.startClaude)
  | Event.stopClaude =>
    (issue "/api/claude/stop" ⟨"POST", Payload.emptyObject⟩ s, some Pending.stopClaude)
  | Event.submitApp =>
    let language := jsTrim s.appLanguage
    let name := jsTrim s.appName
    let instruction := jsTrim s.appInstruction
    if language = "" ∨ name = "" then
      (setAppStatus "Language and name are required." false s, none)
    else
      (issue "/api/new-claude-task" ⟨"POST", Payload.newClaudeTask language name instruction⟩
        (setAppStatus "Creating app..." true s), some Pending.submitApp)
  | Event.typeFields l n i =>
    ({ s with appLanguage := l, appName := n, appInstruction := i }, none)
  | Event.settle _ _ _ _ => (s, none)

/-- One event applied to the world.  Settling resumes the suspended call of
that number, which is replaced by the call it suspends next or removed when it
has finished; settling a number that waits for nothing, or with an answer of
the wrong shape, changes nothing. -/
def step (w : World) (e : Event) : World :=
  match e with
  | Event.settle i a lc sc =>
    match w.pending[i]? with
    | none => w
    | some p =>
      match resume p a lc sc w.page with
      | none => w
      | some (page, some q) => ⟨page, w.pending.set i q⟩
      | some (page, none) => ⟨page, w.pending.eraseIdx i⟩
  | _ => spawn w (handle e w.page)

/-- A sequence of events applied in order. -/
def run (es : List Event) (w : World) : World :=
  es.foldl step w

/-- The settled results of one cycle. -/
structure Results where
  summary : Option Summary
  tasks : Option ItemList
  approvals : Option ItemList
  logs : Option LogLines
  claudeLogs : Option LogLines

/-- The results with which a `refresh()` call finishes and renders at this
event, if one does: the event settles the Claude-logs request of a call. -/
def finished (w : World) (e : Event) : Option Results :=
  match e with
  | Event.settle i (Answer.lines r) _ _ =>
    match w.pending[i]? with
    | some (Pending.claudeLogs sm t ap l) => some ⟨sm, t, ap, l, got r⟩
    | _ => none
  | _ => none

/-- The work-log line of text `[clock] message`. -/
def stamped (clock message : String) : Row :=
  ⟨"p", "", Body.text ("[" ++ clock ++ "] " ++ message)⟩

/-- The lines an event writes into the work log, newest first: the line of a
failed request above nothing, the line of an action above the line of its
failed POST. -/
def written (w : World) (e : Event) : List Row :=
  match e with
  | Event.startWatchers lc _ => [stamped lc "Watchers started."]
  | Event.stopWatchers lc _ => [stamped lc "Watchers stopped."]
  | Event.settle i a lc _ =>
    match w.pending[i]?, a with
    | some Pending.summary, Answer.summary r => errorRows "/api/summary" r
    | some (Pending.tasks _), Answer.items r => errorRows "/api/tasks" r
    | some (Pending.approvals _ _), Answer.items r => errorRows "/api/approvals" r
    | some (Pending.logs _ _ _), Answer.lines r => errorRows "/api/logs" r
    | some (Pending.claudeLogs _ _ _ _), Answer.lines r => errorRows "/api/claude/logs" r
    | some Pending.runOrchestrator, Answer.plain r =>
      stamped lc "Orchestrator executed." :: errorRows "/api/run-orchestrator" r
    | some Pending.newTask, Answer.plain r =>
      stamped lc "New task queued." :: errorRows "/api/new-task" r
    | some (Pending.approve _ path), Answer.plain r =>
      stamped lc ("Approved: " ++ path) :: errorRows "/api/approve" r
    | some (Pending.reject path), Answer.plain r =>
      stamped lc ("Rejected: " ++ path) :: errorRows "/api/reject" r
    | some Pending.openVault, Answer.vault r =>
      (match got r with
        | some data =>
          match truthy data.vault with
          | some vault => [stamped lc ("Vault path: " ++ vault)]
          | none => []
        | none => []) ++ errorRows "/api/vault-path" r
    | some Pending.startClaude, Answer.ack r =>
      stamped lc (if ackOk (got r) then "Claude started." else "Claude start failed.")
        :: errorRows "/api/claude/start" r
    | some Pending.stopClaude, Answer.ack r =>
      stamped lc (if ackOk (got r) then "Claude stopped." else "Claude stop failed.")
        :: errorRows "/api/claude/stop" r
    | some Pending.submitApp, Answer.created r =>
      (match got r with
        | some result =>
          if result.ok then [stamped lc ("Claude task queued at " ++ interpolate result.path)]
          else []
        | none => []) ++ errorRows "/api/new-claude-task" r
    | _, _ => []
  | _ => []

/-- What the lists show: for each list the response of the cycle that rendered
it last, if one has, and the lines written into the work log since it was
rendered last, newest first. -/
structure Shown where
  tasks : Option ItemList
  approvals : Option ItemList
  logs : Option LogLines
  claudeLogs : Option LogLines
  logged : List Row

/-- Nothing rendered and nothing logged yet. -/
def Shown.start : Shown :=
  ⟨none, none, none, none, []⟩

/-- The later of two responses. -/
def latest {α : Type} (new old : Option α) : Option α :=
  match new with
  | some x => some x
  | none => old

/-- The record of what is shown, brought up to date over one event in world
`w`: a finishing cycle replaces the response of each endpoint it fetched, and
when it fetched the logs the lines written so far are gone. -/
def note (w : World) (e : Event) (g : Shown) : Shown :=
  match finished w e with
  | some res =>
    { tasks := latest res.tasks g.tasks
      approvals := latest res.approvals g.approvals
      logs := latest res.logs g.logs
      claudeLogs := latest res.claudeLogs g.claudeLogs
      logged := match res.logs with
        | some _ => []
        | none => written w e ++ g.logged }
  | none => { g with logged := written w e ++ g.logged }

/-- The record of what is shown after a sequence of events from world `w`. -/
def shownAfter : List Event → World → Shown → Shown
  | [], _, g => g
  | e :: es, w, g => shownAfter es (step w e) (note w e g)

/-- The page `s` shows what the record `g` says, over the initial content of
the page `base`. -/
def Agrees (base s : Page) (g : Shown) : Prop :=
  s.taskList = (match g.tasks with
    | some tasks => renderTasks tasks.items []
    | none => base.taskList) ∧
  s.approvalList = (match g.approvals with
    | some approvals => renderApprovals approvals.items []
    | none => base.approvalList) ∧
  s.claudeLog = (match g.claudeLogs with
    | some claudeLogs => renderClaudeLogs claudeLogs.lines []
    | none => base.claudeLog) ∧
  s.workLog = g.logged ++ (match g.logs with
    | some logs => renderLogs logs.lines []
    | none => base.workLog)

/-- The response a settling event fetches from `/api/tasks`, if it does. -/
def fetchedTasks (w : World) (e : Event) : Option ItemList :=
  match e with
  | Event.settle i (Answer.items r) _ _ =>
    match w.pending[i]? with
    | some (Pending.tasks _) => got r
    | _ => none
  | _ => none

/-- The response a settling event fetches from `/api/logs`, if it does. -/
def fetchedLogs (w : World) (e : Event) : Option LogLines :=
  match e with
  | Event.settle i (Answer.lines r) _ _ =>
    match w.pending[i]? with
    | some (Pending.logs _ _ _) => got r
    | _ => none
  | _ => none

/-- The most recent successfully fetched response over a sequence of events
from world `w`; `pick` tells what an event fetches. -/
def lastFetched {α : Type} (pick : World → Event → Option α) :
    List Event → World → Option α → Option α
  | [], _, acc => acc
  | e :: es, w, acc => lastFetched pick es (step w e) (latest (pick w e) acc)

/-- The events of one cycle that runs alone as call number `i`: its five
requests settle one after the other. -/
def cycleEvents (i : Nat) (c : Cycle) : List Event :=
  [Event.settle i (Answer.summary c.summary) "" "", Event.settle i (Answer.items c.tasks) "" "",
   Event.settle i (Answer.items c.approvals) "" "", Event.settle i (Answer.lines c.logs) "" "",
   Event.settle i (Answer.lines c.claudeLogs) "" c.syncClock]

/-- A page before the script has written anything. -/
def blankPage : Page :=
  { lastSync := "", watcherStatus := "", orchestratorStatus := "", claudeStatus := "",
    agentStatus := "", agentOnline := false, workLog := [], claudeLog := [], taskList := [],
    approvalList := [], metricTasks := "", metricApprovals := "", appLanguage := "",
    appName := "", appInstruction := "", appStatus := "", appStatusColor := "",
    watchersRunning := false, requests := [] }

/-- A request answered with status OK and the body `body`. -/
def okReply {α : Type} (clock : String) (body : α) : Reply α :=
  ⟨clock, Except.ok ⟨true, Except.ok body⟩⟩

/-- A request whose transport rejects. -/
def lostReply {α : Type} (clock : String) : Reply α :=
  ⟨clock, Except.error "network"⟩

/-- A cycle at nine with the given replies for tasks, approvals and logs; the
summary says that Claude runs and the Claude log is empty. -/
def cycleWith (tasks approvals : Reply ItemList) (logs : Reply LogLines) : Cycle :=
  ⟨okReply "09:00" ⟨true⟩, tasks, approvals, logs, okReply "09:00" ⟨[]⟩, "09:00"⟩

/-- A task. -/
def sampleItem : Item := ⟨"Needs_Action/a.md", "Reply to a", "email"⟩

/-- A page whose form holds a name and an instruction and a language field of
two blanks. -/
def formPage : Page :=
  { blankPage with appLanguage := "  ", appName := "notes", appInstruction := "a notes app" }

/-- A second task. -/
def newItem : Item := ⟨"Needs_Action/b.md", "Reply to b", "email"⟩

/-- Two overlapping cycles.  The first fetches the tasks `[sampleItem]` and
waits for its logs; a click on new-task starts a second cycle, which fetches
`[sampleItem, newItem]` and renders; then the first finishes and renders. -/
def overlap : List Event :=
  [Event.tick,
   Event.settle 0 (Answer.summary (okReply "09:00" ⟨true⟩)) "" "",
   Event.settle 0 (Answer.items (okReply "09:00" ⟨[sampleItem]⟩)) "" "",
   Event.settle 0 (Answer.items (okReply "09:00" ⟨[]⟩)) "" "",
   Event.newTask,
   Event.settle 1 (Answer.plain (okReply "09:01" ())) "09:01" "",
   Event.settle 1 (Answer.summary (okReply "09:01" ⟨true⟩)) "" "",
   Event.settle 1 (Answer.items (okReply "09:01" ⟨[sampleItem, newItem]⟩)) "" "",
   Event.settle 1 (Answer.items (okReply "09:01" ⟨[]⟩)) "" "",
   Event.settle 1 (Answer.lines (okReply "09:01" ⟨[]⟩)) "" "",
   Event.settle 1 (Answer.lines (okReply "09:01" ⟨[]⟩)) "" "09:01",
   Event.settle 0 (Answer.lines (okReply "09:02" ⟨[]⟩)) "" "",
   Event.settle 0 (Answer.lines (okReply "09:02" ⟨[]⟩)) "" "09:02"]

/-- One cycle that fetches the log line `x` and renders, then a click on
start-watchers. -/
def renderThenClick : List Event :=
  Event.tick :: cycleEvents 0 (cycleWith (okReply "09:00" ⟨[]⟩) (okReply "09:00" ⟨[]⟩)
    (okReply "09:00" ⟨["x"]⟩)) ++ [Event.startWatchers "09:01" "09:01"]

/-- One cycle whose logs request is lost. -/
def lostLogs : List Event :=
  Event.tick :: cycleEvents 0 (cycleWith (okReply "09:00" ⟨[]⟩) (okReply "09:00" ⟨[]⟩)
    (lostReply "09:00"))

/-- The world of the blank page with no call suspended. -/
def blankWorld : World :=
  ⟨blankPage, []⟩

end Dashboard

namespace Todo

/-! ## Todo list: `escapeHtml` and `renderTodo` -/

/-- The character `"`. -/
def quote : Char := Char.ofNat 34

/-- The character written `&#039;` by the map. -/
def apostrophe : Char := Char.ofNat 39

/-- The replacement callback of `escapeHtml`: `map[m]` for the five characters
the pattern matches, the character itself otherwise. -/
def escapeChar (c : Char) : List Char :=
  if c = '&' then ['&', 'a', 'm', 'p', ';']
  else if c = '<' then ['&', 'l', 't', ';']
  else if c = '>' then ['&', 'g', 't', ';']
  else if c = quote then ['&', 'q', 'u', 'o', 't', ';']
  else if c = apostrophe then ['&', '#', '0', '3', '9', ';']
  else [c]

/-- The global replace of `escapeHtml`, character by character. -/
def escapeChars : List Char → List Char
  | [] => []
  | c :: rest => escapeChar c ++ escapeChars rest

/-- Source `escapeHtml`.  The five characters of the pattern are single code
units, so replacing by character is replacing by code unit. -/
def escapeHtml (text : String) : String :=
  String.mk (escapeChars text.data)

/-- The five entities after their `&`, each with the character it stands for. -/
def entities : List (List Char × Char) :=
  [(['a', 'm', 'p', ';'], '&'), (['l', 't', ';'], '<'), (['g', 't', ';'], '>'),
   (['q', 'u', 'o', 't', ';'], quote), (['#', '0', '3', '9', ';'], apostrophe)]

/-- The entity that starts `l`, if one does: its character and what follows it. -/
def matchEntity (l : List Char) : List (List Char × Char) → Option (Char × List Char)
  | [] => none
  | (name, c) :: more =>
    if l.take name.length = name then some (c, l.drop name.length) else matchEntity l more

/-- Replaces the five entities by their characters, scanning left to right.
`fuel` bounds the number of characters read. -/
def unescapeFuel : Nat → List Char → List Char
  | 0, _ => []
  | _, [] => []
  | fuel + 1, c :: rest =>
    if c = '&' then
      match matchEntity rest entities with
      | some (d, after) => d :: unescapeFuel fuel after
      | none => c :: unescapeFuel fuel rest
    else c :: unescapeFuel fuel rest

/-- Replaces the five entities by their characters, left to right. -/
def unescapeChars (l : List Char) : List Char :=
  unescapeFuel l.length l

/-- Every `&` of the list is followed by the name of one of the five entities. -/
def ampsBeginEntities : List Char → Bool
  | [] => true
  | c :: rest => (c != '&' || (matchEntity rest entities).isSome) && ampsBeginEntities rest

/-- A stored todo. -/
structure TodoItem where
  id : Nat
  text : String
  completed : Bool
  deriving DecidableEq, Repr

/-- The `li` that `renderTodo` builds. -/
structure TodoRow where
  className : String
  id : String
  innerHTML : String
  deriving DecidableEq, Repr

/-- The markup `renderTodo` writes in front of the escaped text. -/
def markupBefore (id : Nat) (completed : Bool) : String :=
  "\n        <input\n            type=\"checkbox\"\n            class=\"todo-checkbox\"\n            "
    ++ (if completed then "checked" else "")
    ++ "\n            onchange=\"toggleTodo(" ++ toString id
    ++ ")\"\n        >\n        <span class=\"todo-text\">"

/-- The markup `renderTodo` writes behind the escaped text. -/
def markupAfter (id : Nat) : String :=
  "</span>\n        <button class=\"delete-btn\" onclick=\"deleteTodo(" ++ toString id
    ++ ")\">Delete</button>\n    "

/-- Source `renderTodo`, on the children of `todoList`. -/
def renderTodo (todo : TodoItem) (list : List TodoRow) : List TodoRow :=
  list ++ [{ className := "todo-item " ++ (if todo.completed then "completed" else "")
             id := "todo-" ++ toString todo.id
             innerHTML := markupBefore todo.id todo.completed ++ escapeHtml todo.text
               ++ markupAfter todo.id }]

end Todo

namespace Dashboard

/-! ## Lemmas on `fetchJSON` and `refresh` -/

theorem fetchJSON_fst {α : Type} (path : String) (options : Options) (r : Reply α) (s : Page) :
    (fetchJSON path options r s).1 = got r := by
  unfold fetchJSON got
  cases tryFetch r.wire <;> rfl

theorem fetchJSON_snd {α : Type} (path : String) (options : Options) (r : Reply α) (s : Page) :
    (fetchJSON path options r s).2 =
      { s with
        requests := s.requests ++ [⟨options.method, path, options.body⟩]
        workLog := errorRows path r ++ s.workLog } := by
  unfold fetchJSON errorRows got
  cases tryFetch r.wire <;> rfl

/-- The page after one cycle, field by field. -/
theorem refresh_eq (c : Cycle) (s : Page) :
    refresh c s =
      { s with
        requests := s.requests ++ refreshRequests
        lastSync := match got c.summary with
          | some _ => c.syncClock
          | none => s.lastSync
        claudeStatus := match got c.summary with
          | some summary => if summary.claude_running then "Running" else "Stopped"
          | none => s.claudeStatus
        metricTasks := match got c.summary with
          | some _ => toString (itemsOrEmpty (got c.tasks)).length
          | none => s.metricTasks
        metricApprovals := match got c.summary with
          | some _ => toString (itemsOrEmpty (got c.approvals)).length
          | none => s.metricApprovals
        taskList := match got c.tasks with
          | some tasks => renderTasks tasks.items s.taskList
          | none => s.taskList
        approvalList := match got c.approvals with
          | some approvals => renderApprovals approvals.items s.approvalList
          | none => s.approvalList
        workLog := match got c.logs with
          | some logs => renderLogs logs.lines (c.errorLines ++ s.workLog)
          | none => c.errorLines ++ s.workLog
        claudeLog := match got c.claudeLogs with
          | some claudeLogs => renderClaudeLogs claudeLogs.lines s.claudeLog
          | none => s.claudeLog } := by
  cases s
  rcases h1 : got c.summary with _ | b1 <;> rcases h2 : got c.tasks with _ | b2 <;>
    rcases h3 : got c.approvals with _ | b3 <;> rcases h4 : got c.logs with _ | b4 <;>
    rcases h5 : got c.claudeLogs with _ | b5 <;>
    simp only [refresh, fetchJSON_fst, fetchJSON_snd, h1, h2, h3, h4, h5, Cycle.errorLines,
      errorRows, refreshRequests, itemsOrEmpty, updateCounts, updateSync, List.nil_append,
      List.append_nil, List.cons_append, List.append_assoc, renderLogs]

end Dashboard

namespace Todo

/-! ## `escapeHtml` -/

theorem escapeChar_clean (c : Char) :
    '<' ∉ escapeChar c ∧ '>' ∉ escapeChar c ∧ quote ∉ escapeChar c ∧
      apostrophe ∉ escapeChar c := by
  unfold escapeChar
  split_ifs with h1 h2 h3 h4 h5
  · decide
  · decide
  · decide
  · decide
  · decide
  · simp only [List.mem_singleton]
    exact ⟨fun h => h2 h.symm, fun h => h3 h.symm, fun h => h4 h.symm, fun h => h5 h.symm⟩

theorem escapeChars_clean (l : List Char) :
    '<' ∉ escapeChars l ∧ '>' ∉ escapeChars l ∧ quote ∉ escapeChars l ∧
      apostrophe ∉ escapeChars l := by
  induction l with
  | nil => simp [escapeChars]
  | cons c rest ih =>
    have h := escapeChar_clean c
    simp only [escapeChars, List.mem_append, not_or]
    exact ⟨⟨h.1, ih.1⟩, ⟨h.2.1, ih.2.1⟩, ⟨h.2.2.1, ih.2.2.1⟩, ⟨h.2.2.2, ih.2.2.2⟩⟩

theorem unescapeFuel_escapeChars (l : List Char) :
    ∀ fuel, (escapeChars l).length ≤ fuel → unescapeFuel fuel (escapeChars l) = l := by
  induction l with
  | nil =>
    intro fuel _
    cases fuel <;> rfl
  | cons c rest ih =>
    intro fuel hf
    simp only [escapeChars, escapeChar] at hf ⊢
    split_ifs at hf ⊢ with h1 h2 h3 h4 h5
    all_goals
      cases fuel with
      | zero => simp at hf
      | succ f =>
        simp only [List.cons_append, List.nil_append, List.length_cons] at hf ⊢
        have hf2 : (escapeChars rest).length ≤ f := by omega
        simp [unescapeFuel, matchEntity, entities, ih f hf2, *]

theorem ampsBeginEntities_escapeChars (l : List Char) :
    ampsBeginEntities (escapeChars l) = true := by
  induction l with
  | nil => rfl
  | cons c rest ih =>
    simp only [escapeChars, escapeChar]
    split_ifs with h1 h2 h3 h4 h5
    all_goals simp [ampsBeginEntities, matchEntity, entities, ih, *]


/-- C10: `escapeHtml(s)` holds none of `<`, `>`, `"` and the apostrophe; every
`&` in it begins one of the five entities; replacing the entities by their
characters from left to right gives `s` back; and the text `renderTodo` puts
into the markup of a todo is `escapeHtml(todo.text)`, between two pieces that
do not depend on the text. -/
theorem escapeHtml_safe (s : String) :
    ('<' ∉ (escapeHtml s).data ∧ '>' ∉ (escapeHtml s).data ∧ quote ∉ (escapeHtml s).data ∧
      apostrophe ∉ (escapeHtml s).data) ∧
    ampsBeginEntities (escapeHtml s).data = true ∧
    String.mk (unescapeChars (escapeHtml s).data) = s ∧
    ∀ (id : Nat) (completed : Bool) (list : List TodoRow),
      ∃ row, renderTodo ⟨id, s, completed⟩ list = list ++ [row] ∧
        row.innerHTML = markupBefore id completed ++ escapeHtml s ++ markupAfter id := by
  refine ⟨escapeChars_clean s.data, ampsBeginEntities_escapeChars s.data, ?_, ?_⟩
  · show String.mk (unescapeFuel (escapeChars s.data).length (escapeChars s.data)) = s
    rw [unescapeFuel_escapeChars s.data _ le_rfl]
  · intro id completed list
    exact ⟨_, rfl, rfl⟩

end Todo

namespace Dashboard

/-! ## `fetchJSON` -/

theorem stamp_assoc (clock a b : String) :
    "[" ++ clock ++ "] " ++ (a ++ b) = "[" ++ clock ++ ("] " ++ a) ++ b := by
  simp only [String.append_assoc]

/-- C3: `fetchJSON` is a total function, so nothing escapes it.  When the
transport rejects, the status is not OK or the body does not parse, the result
is `null` and the work log gains exactly one entry, a `p` of text
`[clock] API error: <path>` in front of the entries it had; when the status is
OK and the body parses, the result is the parsed body and the work log is
untouched.  Every reply is one of the four. -/
theorem fetchJSON_contained {α : Type} (path : String) (options : Options) (r : Reply α)
    (s : Page) :
    ((∃ e, r.wire = Except.error e) ∨ (∃ resp, r.wire = Except.ok resp ∧ resp.ok = false) ∨
        (∃ resp e, r.wire = Except.ok resp ∧ resp.ok = true ∧ resp.json = Except.error e) →
      (fetchJSON path options r s).1 = none ∧
        (fetchJSON path options r s).2.workLog =
          ⟨"p", "", Body.text ("[" ++ r.clock ++ "] API error: " ++ path)⟩ :: s.workLog) ∧
    (∀ resp body, r.wire = Except.ok resp → resp.ok = true → resp.json = Except.ok body →
      (fetchJSON path options r s).1 = some body ∧
        (fetchJSON path options r s).2.workLog = s.workLog) ∧
    ((∃ e, r.wire = Except.error e) ∨ (∃ resp, r.wire = Except.ok resp ∧ resp.ok = false) ∨
        (∃ resp e, r.wire = Except.ok resp ∧ resp.ok = true ∧ resp.json = Except.error e) ∨
        (∃ resp body, r.wire = Except.ok resp ∧ resp.ok = true ∧ resp.json = Except.ok body)) := by
  obtain ⟨clock, wire⟩ := r
  have ht : "[" ++ clock ++ "] " ++ ("API error: " ++ path)
      = "[" ++ clock ++ "] API error: " ++ path := stamp_assoc clock "API error: " path
  refine ⟨?_, ?_, ?_⟩
  · rintro (⟨e, h⟩ | ⟨resp, h, hok⟩ | ⟨resp, e, h, hok, hj⟩)
    · simp only at h
      subst h
      exact ⟨rfl, by simp [fetchJSON, tryFetch, logLine, logRow, ht]⟩
    · simp only at h
      subst h
      simp [fetchJSON, tryFetch, hok, logLine, logRow, ht]
    · simp only at h
      subst h
      simp [fetchJSON, tryFetch, hok, hj, logLine, logRow, ht]
  · intro resp body h hok hj
    simp only at h
    subst h
    simp [fetchJSON, tryFetch, hok, hj]
  · cases wire with
    | error e => exact Or.inl ⟨e, rfl⟩
    | ok resp =>
      obtain ⟨ok, json⟩ := resp
      cases ok with
      | false => exact Or.inr (Or.inl ⟨_, rfl, rfl⟩)
      | true =>
        cases json with
        | error e => exact Or.inr (Or.inr (Or.inl ⟨_, e, rfl, rfl, rfl⟩))
        | ok body => exact Or.inr (Or.inr (Or.inr ⟨_, body, rfl, rfl, rfl⟩))

/-- Witness of C3: a rejected `GET /api/tasks` on the blank page gives `null`
and the one entry `[09:00] API error: /api/tasks`; an answered one gives the
body and no entry. -/
theorem fetchJSON_contained_witness :
    ((fetchJSON "/api/tasks" {} (lostReply "09:00" : Reply ItemList) blankPage).1 = none ∧
      (fetchJSON "/api/tasks" {} (lostReply "09:00" : Reply ItemList) blankPage).2.workLog =
        [⟨"p", "", Body.text "[09:00] API error: /api/tasks"⟩]) ∧
    ((fetchJSON "/api/tasks" {} (okReply "09:00" (ItemList.mk [])) blankPage).1
        = some (ItemList.mk []) ∧
      (fetchJSON "/api/tasks" {} (okReply "09:00" (ItemList.mk [])) blankPage).2.workLog
        = []) :=
  ⟨(fetchJSON_contained "/api/tasks" {} (lostReply "09:00" : Reply ItemList) blankPage).1
      (Or.inl ⟨"network", rfl⟩),
   (fetchJSON_contained "/api/tasks" {} (okReply "09:00" (ItemList.mk [])) blankPage).2.1
      ⟨true, Except.ok (ItemList.mk [])⟩ (ItemList.mk []) rfl rfl rfl⟩

/-! ## Rendering -/

theorem foldl_snoc_eq_map {α β : Type} (f : α → β) (l : List α) (acc : List β) :
    l.foldl (fun acc x => acc ++ [f x]) acc = acc ++ l.map f := by
  induction l generalizing acc with
  | nil => simp
  | cons x rest ih => simp [ih]

theorem renderTasks_length (items : List Item) (old : List Row) :
    (renderTasks items old).length = if items.length = 0 then 1 else items.length := by
  unfold renderTasks appendChild clearChildren
  split_ifs <;> simp [foldl_snoc_eq_map]

theorem renderApprovals_length (items : List Item) (old : List Row) :
    (renderApprovals items old).length = if items.length = 0 then 1 else items.length := by
  unfold renderApprovals appendChild clearChildren
  split_ifs <;> simp [foldl_snoc_eq_map]

theorem renderLogs_length (lines : List String) (old : List Row) :
    (renderLogs lines old).length = if lines.length = 0 then 1 else lines.length := by
  unfold renderLogs appendChild clearChildren
  split_ifs
  · rfl
  · rw [foldl_snoc_eq_map]
    simp

theorem renderClaudeLogs_length (lines : List String) (old : List Row) :
    (renderClaudeLogs lines old).length = if lines.length = 0 then 1 else lines.length := by
  unfold renderClaudeLogs appendChild clearChildren
  split_ifs
  · rfl
  · rw [foldl_snoc_eq_map]
    simp

/-- C5: each of the four render functions is idempotent and forgets what the
target held: rendering a list over its own result gives the same rows as
rendering it once, over any two previous contents the rows are the same, and
the number of rows is the length of the list (one placeholder row for an empty
list). -/
theorem render_idempotent (items : List Item) (lines : List String) (old other : List Row) :
    (renderTasks items (renderTasks items old) = renderTasks items old ∧
      renderTasks items old = renderTasks items other ∧
      (renderTasks items old).length = if items.length = 0 then 1 else items.length) ∧
    (renderApprovals items (renderApprovals items old) = renderApprovals items old ∧
      renderApprovals items old = renderApprovals items other ∧
      (renderApprovals items old).length = if items.length = 0 then 1 else items.length) ∧
    (renderLogs lines (renderLogs lines old) = renderLogs lines old ∧
      renderLogs lines old = renderLogs lines other ∧
      (renderLogs lines old).length = if lines.length = 0 then 1 else lines.length) ∧
    (renderClaudeLogs lines (renderClaudeLogs lines old) = renderClaudeLogs lines old ∧
      renderClaudeLogs lines old = renderClaudeLogs lines other ∧
      (renderClaudeLogs lines old).length = if lines.length = 0 then 1 else lines.length) :=
  ⟨⟨rfl, rfl, renderTasks_length items old⟩, ⟨rfl, rfl, renderApprovals_length items old⟩,
    ⟨rfl, rfl, renderLogs_length lines old⟩, ⟨rfl, rfl, renderClaudeLogs_length lines old⟩⟩

/-- C6: for the empty list, whatever the target held, `renderTasks` and
`renderApprovals` leave exactly one row, the `empty` placeholder with its
text, and the list holds no `input` and no `button` element. -/
theorem render_empty_placeholder (old : List Row) :
    (renderTasks [] old = [⟨"li", "list-item empty", Body.text "No open tasks."⟩] ∧
      (renderTasks [] old).length = 1 ∧ controlsIn (renderTasks [] old) = 0) ∧
    (renderApprovals [] old = [⟨"li", "list-item empty", Body.text "No approvals pending."⟩] ∧
      (renderApprovals [] old).length = 1 ∧ controlsIn (renderApprovals [] old) = 0) := by
  refine ⟨⟨rfl, rfl, ?_⟩, ⟨rfl, rfl, ?_⟩⟩
  · show controlsIn [⟨"li", "list-item empty", Body.text "No open tasks."⟩] = 0
    simp [controlsIn, Row.controls]
  · show controlsIn [⟨"li", "list-item empty", Body.text "No approvals pending."⟩] = 0
    simp [controlsIn, Row.controls]

/-! ## One cycle -/

/-- C9: when the summary request of a cycle is answered with status OK and the
body `claude_running: b`, the Claude status label after the cycle reads
`Running` for `b = true` and `Stopped` for `b = false`, whatever the other four
replies are. -/
theorem refresh_claude_status (c : Cycle) (s : Page) (b : Bool)
    (h : c.summary.wire = Except.ok ⟨true, Except.ok ⟨b⟩⟩) :
    (refresh c s).claudeStatus = if b then "Running" else "Stopped" := by
  have hg : got c.summary = some ⟨b⟩ := by simp [got, tryFetch, h]
  rw [refresh_eq]
  simp only [hg]

/-- Witness of C9: the summary says `true` and the four other requests are
lost. -/
theorem refresh_claude_status_witness :
    (refresh ⟨okReply "09:00" ⟨true⟩, lostReply "09:00", lostReply "09:00", lostReply "09:00",
        lostReply "09:00", "09:01"⟩ blankPage).claudeStatus = "Running" :=
  refresh_claude_status _ blankPage true rfl

/-- C1, as the code has it: for every cycle, whatever the other requests do,
the task list, the approval list, the Claude log, the last-sync label and the
Claude status label each hold the rendering of their own response when their
own request succeeded and their previous content when it failed.  The two
counts are written when the summary request succeeds and then show the
lengths of the task and approval responses, `0` for a failed one.  The work log
holds the rendering of its response when its request succeeded, and otherwise
its previous content below one error line per failed request of the cycle. -/
theorem refresh_panels (c : Cycle) (s : Page) :
    (refresh c s).taskList = (match got c.tasks with
      | some tasks => renderTasks tasks.items s.taskList
      | none => s.taskList) ∧
    (refresh c s).approvalList = (match got c.approvals with
      | some approvals => renderApprovals approvals.items s.approvalList
      | none => s.approvalList) ∧
    (refresh c s).claudeLog = (match got c.claudeLogs with
      | some claudeLogs => renderClaudeLogs claudeLogs.lines s.claudeLog
      | none => s.claudeLog) ∧
    (refresh c s).lastSync = (match got c.summary with
      | some _ => c.syncClock
      | none => s.lastSync) ∧
    (refresh c s).claudeStatus = (match got c.summary with
      | some summary => if summary.claude_running then "Running" else "Stopped"
      | none => s.claudeStatus) ∧
    (refresh c s).metricTasks = (match got c.summary with
      | some _ => toString (itemsOrEmpty (got c.tasks)).length
      | none => s.metricTasks) ∧
    (refresh c s).metricApprovals = (match got c.summary with
      | some _ => toString (itemsOrEmpty (got c.approvals)).length
      | none => s.metricApprovals) ∧
    (refresh c s).workLog = (match got c.logs with
      | some logs => renderLogs logs.lines s.workLog
      | none => c.errorLines ++ s.workLog) := by
  rw [refresh_eq]
  exact ⟨rfl, rfl, rfl, rfl, rfl, rfl, rfl, by cases got c.logs <;> rfl⟩

/-- C1 fails as stated.  With the requests for tasks and for logs both lost, the
work log is not its previous content.  With the same answered summary, the task
count reads `1` when the tasks request is answered with one item and `0` when
it is lost, so the lost request changed the summary panel. -/
theorem refresh_failure_reaches_other_panels :
    ((refresh (cycleWith (lostReply "09:00") (okReply "09:00" ⟨[]⟩) (lostReply "09:00"))
        blankPage).workLog
        = [apiErrorRow "09:00" "/api/logs", apiErrorRow "09:00" "/api/tasks"] ∧
      (refresh (cycleWith (lostReply "09:00") (okReply "09:00" ⟨[]⟩) (lostReply "09:00"))
        blankPage).workLog ≠ blankPage.workLog) ∧
    (refresh (cycleWith (okReply "09:00" ⟨[sampleItem]⟩) (okReply "09:00" ⟨[]⟩)
        (okReply "09:00" ⟨[]⟩)) blankPage).metricTasks = "1" ∧
    (refresh (cycleWith (lostReply "09:00") (okReply "09:00" ⟨[]⟩) (okReply "09:00" ⟨[]⟩))
        blankPage).metricTasks = "0" := by
  refine ⟨⟨?_, ?_⟩, ?_, ?_⟩
  · rw [(refresh_eq _ _)]
    simp [cycleWith, got, tryFetch, lostReply, okReply, Cycle.errorLines, errorRows, blankPage]
  · rw [(refresh_eq _ _)]
    simp [cycleWith, got, tryFetch, lostReply, okReply, Cycle.errorLines, errorRows, blankPage]
  · rw [(refresh_eq _ _)]
    simp only [cycleWith, got, tryFetch, lostReply, okReply, itemsOrEmpty]
    decide
  · rw [(refresh_eq _ _)]
    simp only [cycleWith, got, tryFetch, lostReply, okReply, itemsOrEmpty]
    decide


/-! ## What each operation leaves alone -/

@[simp]
theorem logLine_taskList (n m : String) (s : Page) :
    (logLine n m s).taskList = s.taskList := rfl
@[simp]
theorem logLine_approvalList (n m : String) (s : Page) :
    (logLine n m s).approvalList = s.approvalList := rfl
@[simp]
theorem logLine_claudeLog (n m : String) (s : Page) :
    (logLine n m s).claudeLog = s.claudeLog := rfl
@[simp]
theorem logLine_requests (n m : String) (s : Page) :
    (logLine n m s).requests = s.requests := rfl
@[simp]
theorem logLine_workLog (n m : String) (s : Page) :
    (logLine n m s).workLog = logRow n m :: s.workLog := rfl

@[simp]
theorem updateSync_taskList (n : String) (s : Page) :
    (updateSync n s).taskList = s.taskList := rfl
@[simp]
theorem updateSync_approvalList (n : String) (s : Page) :
    (updateSync n s).approvalList = s.approvalList := rfl
@[simp]
theorem updateSync_claudeLog (n : String) (s : Page) :
    (updateSync n s).claudeLog = s.claudeLog := rfl
@[simp]
theorem updateSync_requests (n : String) (s : Page) :
    (updateSync n s).requests = s.requests := rfl
@[simp]
theorem updateSync_workLog (n : String) (s : Page) :
    (updateSync n s).workLog = s.workLog := rfl

@[simp]
theorem updateWatcherState_taskList (b : Bool) (s : Page) :
    (updateWatcherState b s).taskList = s.taskList := rfl
@[simp]
theorem updateWatcherState_approvalList (b : Bool) (s : Page) :
    (updateWatcherState b s).approvalList = s.approvalList := rfl
@[simp]
theorem updateWatcherState_claudeLog (b : Bool) (s : Page) :
    (updateWatcherState b s).claudeLog = s.claudeLog := rfl
@[simp]
theorem updateWatcherState_workLog (b : Bool) (s : Page) :
    (updateWatcherState b s).workLog = s.workLog := rfl

@[simp]
theorem setAppStatus_taskList (m : String) (b : Bool) (s : Page) :
    (setAppStatus m b s).taskList = s.taskList := rfl
@[simp]
theorem setAppStatus_approvalList (m : String) (b : Bool) (s : Page) :
    (setAppStatus m b s).approvalList = s.approvalList := rfl
@[simp]
theorem setAppStatus_claudeLog (m : String) (b : Bool) (s : Page) :
    (setAppStatus m b s).claudeLog = s.claudeLog := rfl
@[simp]
theorem setAppStatus_workLog (m : String) (b : Bool) (s : Page) :
    (setAppStatus m b s).workLog = s.workLog := rfl

@[simp]
theorem fetchJSON_taskList {α : Type} (p : String) (o : Options) (r : Reply α)
    (s : Page) : (fetchJSON p o r s).2.taskList = s.taskList := by
  rw [fetchJSON_snd]
@[simp]
theorem fetchJSON_approvalList {α : Type} (p : String) (o : Options) (r : Reply α)
    (s : Page) : (fetchJSON p o r s).2.approvalList = s.approvalList := by
  rw [fetchJSON_snd]
@[simp]
theorem fetchJSON_claudeLog {α : Type} (p : String) (o : Options) (r : Reply α)
    (s : Page) : (fetchJSON p o r s).2.claudeLog = s.claudeLog := by
  rw [fetchJSON_snd]
@[simp]
theorem fetchJSON_requests {α : Type} (p : String) (o : Options) (r : Reply α)
    (s : Page) : (fetchJSON p o r s).2.requests = s.requests ++ [⟨o.method, p, o.body⟩] := by
  rw [fetchJSON_snd]
@[simp]
theorem fetchJSON_workLog {α : Type} (p : String) (o : Options) (r : Reply α)
    (s : Page) : (fetchJSON p o r s).2.workLog = errorRows p r ++ s.workLog := by
  rw [fetchJSON_snd]

theorem refresh_taskList (c : Cycle) (s : Page) :
    (refresh c s).taskList = match got c.tasks with
      | some tasks => renderTasks tasks.items []
      | none => s.taskList := by
  rw [refresh_eq]
  cases got c.tasks <;> rfl

theorem refresh_approvalList (c : Cycle) (s : Page) :
    (refresh c s).approvalList = match got c.approvals with
      | some approvals => renderApprovals approvals.items []
      | none => s.approvalList := by
  rw [refresh_eq]
  cases got c.approvals <;> rfl

theorem refresh_claudeLog (c : Cycle) (s : Page) :
    (refresh c s).claudeLog = match got c.claudeLogs with
      | some claudeLogs => renderClaudeLogs claudeLogs.lines []
      | none => s.claudeLog := by
  rw [refresh_eq]
  cases got c.claudeLogs <;> rfl

theorem refresh_workLog (c : Cycle) (s : Page) :
    (refresh c s).workLog = match got c.logs with
      | some logs => renderLogs logs.lines []
      | none => c.errorLines ++ s.workLog := by
  rw [refresh_eq]
  cases got c.logs <;> rfl

theorem refresh_requests (c : Cycle) (s : Page) :
    (refresh c s).requests = s.requests ++ refreshRequests := by
  rw [refresh_eq]

/-! ## Suspended calls -/

theorem fetchJSON_eq {α : Type} (path : String) (options : Options) (r : Reply α) (s : Page) :
    fetchJSON path options r s = receive path r (issue path options s) := rfl

theorem receive_fst {α : Type} (path : String) (r : Reply α) (s : Page) :
    (receive path r s).1 = got r := by
  unfold receive got
  cases tryFetch r.wire <;> rfl

theorem receive_snd {α : Type} (path : String) (r : Reply α) (s : Page) :
    (receive path r s).2 = { s with workLog := errorRows path r ++ s.workLog } := by
  unfold receive errorRows got
  cases tryFetch r.wire <;> rfl

theorem logRow_eq_stamped (now message : String) : logRow now message = stamped now message :=
  rfl

theorem renderCycle_eq (summary : Option Summary) (tasks approvals : Option ItemList)
    (logs claudeLogs : Option LogLines) (syncClock : String) (s : Page) :
    renderCycle summary tasks approvals logs claudeLogs syncClock s =
      { s with
        lastSync := match summary with
          | some _ => syncClock
          | none => s.lastSync
        claudeStatus := match summary with
          | some summary => if summary.claude_running then "Running" else "Stopped"
          | none => s.claudeStatus
        metricTasks := match summary with
          | some _ => toString (itemsOrEmpty tasks).length
          | none => s.metricTasks
        metricApprovals := match summary with
          | some _ => toString (itemsOrEmpty approvals).length
          | none => s.metricApprovals
        taskList := match tasks with
          | some tasks => renderTasks tasks.items []
          | none => s.taskList
        approvalList := match approvals with
          | some approvals => renderApprovals approvals.items []
          | none => s.approvalList
        workLog := match logs with
          | some logs => renderLogs logs.lines []
          | none => s.workLog
        claudeLog := match claudeLogs with
          | some claudeLogs => renderClaudeLogs claudeLogs.lines []
          | none => s.claudeLog } := by
  cases s
  cases summary <;> cases tasks <;> cases approvals <;> cases logs <;> cases claudeLogs <;> rfl

theorem pending_last (l : List Pending) (p : Pending) : (l ++ [p])[l.length]? = some p := by
  simp

theorem pending_set_last (l : List Pending) (p q : Pending) :
    (l ++ [p]).set l.length q = l ++ [q] := by
  simp [List.set_append]

theorem pending_erase_last (l : List Pending) (p : Pending) :
    (l ++ [p]).eraseIdx l.length = l := by
  simp [List.eraseIdx_append_of_length_le]

/-- A cycle that runs without another event between its steps, its five
requests settling one after the other, leaves the page that `refresh` gives
and the suspended calls that were there. -/
theorem run_cycle_unbroken (c : Cycle) (w : World) :
    run (Event.tick :: cycleEvents w.pending.length c) w = ⟨refresh c w.page, w.pending⟩ := by
  obtain ⟨s, l⟩ := w
  cases s
  rcases h1 : got c.summary with _ | b1 <;> rcases h2 : got c.tasks with _ | b2 <;>
    rcases h3 : got c.approvals with _ | b3 <;> rcases h4 : got c.logs with _ | b4 <;>
    rcases h5 : got c.claudeLogs with _ | b5 <;>
    simp [run, cycleEvents, step, spawn, handle, beginRefresh, resume, issue, receive_fst,
      receive_snd, renderCycle_eq, refresh_eq, h1, h2, h3, h4, h5, Cycle.errorLines, errorRows,
      refreshRequests, pending_set_last, pending_erase_last] <;>
    (try constructor) <;> (try constructor) <;> (try constructor) <;> (try constructor)

/-- A cycle that runs alone from a world without suspended calls. -/
theorem run_cycle_alone (c : Cycle) (s : Page) :
    run (Event.tick :: cycleEvents 0 c) ⟨s, []⟩ = ⟨refresh c s, []⟩ :=
  run_cycle_unbroken c ⟨s, []⟩

/-! ## Handlers that run alone

When nothing else runs between the steps of a handler, the suspended-call
model leaves the page of the handler function. -/

theorem run_append (es fs : List Event) (w : World) :
    run (es ++ fs) w = run fs (run es w) := by
  simp [run, List.foldl_append]

theorem run_newTask_alone (post : Reply Unit) (lc : String) (c : Cycle) (s : Page) :
    run ([Event.newTask, Event.settle 0 (Answer.plain post) lc ""] ++ cycleEvents 0 c) ⟨s, []⟩
      = ⟨clickNewTask post lc c s, []⟩ := by
  rw [run_append]
  have h : run [Event.newTask, Event.settle 0 (Answer.plain post) lc ""] ⟨s, []⟩
      = run [Event.tick] ⟨logLine lc "New task queued." (fetchJSON "/api/new-task"
          ⟨"POST", Payload.newTask "Draft reply for new inbound Gmail inquiry" "email"
            "Draft a polite reply and request approval before sending."⟩ post s).2, []⟩ := by
    simp [run, step, spawn, handle, resume, beginRefresh, fetchJSON_eq]
  rw [h, ← run_append]
  exact run_cycle_alone c _

theorem run_runOrchestrator_alone (post : Reply Unit) (lc sc : String) (c : Cycle) (s : Page) :
    run ([Event.runOrchestrator, Event.settle 0 (Answer.plain post) lc sc] ++ cycleEvents 0 c)
        ⟨s, []⟩
      = ⟨clickRunOrchestrator post lc sc c s, []⟩ := by
  rw [run_append]
  have h : run [Event.runOrchestrator, Event.settle 0 (Answer.plain post) lc sc] ⟨s, []⟩
      = run [Event.tick] ⟨{ updateSync sc (logLine lc "Orchestrator executed."
          (fetchJSON "/api/run-orchestrator" ⟨"POST", Payload.emptyObject⟩ post
            { s with orchestratorStatus := "Running" }).2) with orchestratorStatus := "Ready" },
          []⟩ := by
    simp [run, step, spawn, handle, resume, beginRefresh, fetchJSON_eq]
  rw [h, ← run_append]
  exact run_cycle_alone c _

theorem run_approve_alone (path : String) (hpath : path ≠ "") (post : Reply Unit)
    (lc : String) (other : Reply Unit) (oc : String) (c : Cycle) (s : Page) :
    run ([Event.approvalClick (approveButton path), Event.settle 0 (Answer.plain post) lc ""]
        ++ cycleEvents 0 c) ⟨s, []⟩
      = ⟨clickApprovalList (approveButton path) post lc other oc c s, []⟩ := by
  rw [run_append]
  have h : run [Event.approvalClick (approveButton path),
        Event.settle 0 (Answer.plain post) lc ""] ⟨s, []⟩
      = run [Event.tick] ⟨logLine lc ("Approved: " ++ path)
          (fetchJSON "/api/approve" ⟨"POST", Payload.path path⟩ post s).2, []⟩ := by
    simp [run, step, spawn, handle, resume, beginRefresh, fetchJSON_eq, approveButton, hpath]
  have h2 : clickApprovalList (approveButton path) post lc other oc c s
      = refresh c (logLine lc ("Approved: " ++ path)
          (fetchJSON "/api/approve" ⟨"POST", Payload.path path⟩ post s).2) := by
    simp [clickApprovalList, approveButton, hpath]
  rw [h, ← run_append, h2]
  exact run_cycle_alone c _

theorem run_startClaude_alone (post : Reply Ack) (lc : String) (s : Page) :
    run [Event.startClaude, Event.settle 0 (Answer.ack post) lc ""] ⟨s, []⟩
      = ⟨clickStartClaude post lc s, []⟩ := by
  simp only [run, List.foldl_cons, List.foldl_nil, step, spawn, handle, clickStartClaude,
    fetchJSON_eq]
  simp [resume]
  split_ifs <;> rfl

theorem run_stopClaude_alone (post : Reply Ack) (lc : String) (s : Page) :
    run [Event.stopClaude, Event.settle 0 (Answer.ack post) lc ""] ⟨s, []⟩
      = ⟨clickStopClaude post lc s, []⟩ := by
  simp only [run, List.foldl_cons, List.foldl_nil, step, spawn, handle, clickStopClaude,
    fetchJSON_eq]
  simp [resume]
  split_ifs <;> rfl

theorem run_openVault_alone (get : Reply VaultInfo) (lc : String) (s : Page) :
    run [Event.openVault, Event.settle 0 (Answer.vault get) lc ""] ⟨s, []⟩
      = ⟨clickOpenVault get lc s, []⟩ := by
  simp only [run, List.foldl_cons, List.foldl_nil, step, spawn, handle, clickOpenVault,
    fetchJSON_eq]
  rcases h : (receive "/api/vault-path" get (issue "/api/vault-path" {} s)).1 with _ | d
  · simp [resume, h]
  · rcases h2 : truthy d.vault with _ | v <;> simp [resume, h, h2]

theorem run_submit_alone (post : Reply CreateResult) (lc : String) (s : Page) :
    run [Event.submitApp, Event.settle 0 (Answer.created post) lc ""] ⟨s, []⟩
      = ⟨submitAppForm post lc s, []⟩ := by
  simp only [run, List.foldl_cons, List.foldl_nil, step, spawn, handle, submitAppForm,
    fetchJSON_eq]
  split_ifs
  · rfl
  · rcases h : (receive "/api/new-claude-task" post (issue "/api/new-claude-task"
        ⟨"POST", Payload.newClaudeTask (jsTrim s.appLanguage) (jsTrim s.appName)
          (jsTrim s.appInstruction)⟩ (setAppStatus "Creating app..." true s))).1 with _ | d
    · simp [resume, h]
    · by_cases hok : d.ok = true
      · simp [resume, h, hok]
      · rcases h2 : truthy d.error with _ | v <;> simp [resume, h, hok, h2]

@[simp]
theorem issue_taskList (p : String) (o : Options) (s : Page) :
    (issue p o s).taskList = s.taskList := rfl
@[simp]
theorem issue_approvalList (p : String) (o : Options) (s : Page) :
    (issue p o s).approvalList = s.approvalList := rfl
@[simp]
theorem issue_claudeLog (p : String) (o : Options) (s : Page) :
    (issue p o s).claudeLog = s.claudeLog := rfl
@[simp]
theorem issue_workLog (p : String) (o : Options) (s : Page) :
    (issue p o s).workLog = s.workLog := rfl

@[simp]
theorem receive_taskList {α : Type} (p : String) (r : Reply α) (s : Page) :
    (receive p r s).2.taskList = s.taskList := by
  rw [receive_snd]
@[simp]
theorem receive_approvalList {α : Type} (p : String) (r : Reply α) (s : Page) :
    (receive p r s).2.approvalList = s.approvalList := by
  rw [receive_snd]
@[simp]
theorem receive_claudeLog {α : Type} (p : String) (r : Reply α) (s : Page) :
    (receive p r s).2.claudeLog = s.claudeLog := by
  rw [receive_snd]
@[simp]
theorem receive_workLog {α : Type} (p : String) (r : Reply α) (s : Page) :
    (receive p r s).2.workLog = errorRows p r ++ s.workLog := by
  rw [receive_snd]

@[simp]
theorem renderCycle_taskList (sm : Option Summary) (t ap : Option ItemList)
    (l cl : Option LogLines) (sc : String) (s : Page) :
    (renderCycle sm t ap l cl sc s).taskList = match t with
      | some tasks => renderTasks tasks.items []
      | none => s.taskList := by
  rw [renderCycle_eq]
@[simp]
theorem renderCycle_approvalList (sm : Option Summary) (t ap : Option ItemList)
    (l cl : Option LogLines) (sc : String) (s : Page) :
    (renderCycle sm t ap l cl sc s).approvalList = match ap with
      | some approvals => renderApprovals approvals.items []
      | none => s.approvalList := by
  rw [renderCycle_eq]
@[simp]
theorem renderCycle_claudeLog (sm : Option Summary) (t ap : Option ItemList)
    (l cl : Option LogLines) (sc : String) (s : Page) :
    (renderCycle sm t ap l cl sc s).claudeLog = match cl with
      | some claudeLogs => renderClaudeLogs claudeLogs.lines []
      | none => s.claudeLog := by
  rw [renderCycle_eq]
@[simp]
theorem renderCycle_workLog (sm : Option Summary) (t ap : Option ItemList)
    (l cl : Option LogLines) (sc : String) (s : Page) :
    (renderCycle sm t ap l cl sc s).workLog = match l with
      | some logs => renderLogs logs.lines []
      | none => s.workLog := by
  rw [renderCycle_eq]

theorem spawn_page (w : World) (r : Page × Option Pending) : (spawn w r).page = r.1 := by
  unfold spawn
  cases r.2 <;> rfl

/-- The page after one event: the page the handler leaves, or the page the
resumed call leaves. -/
theorem step_page (w : World) (e : Event) :
    (step w e).page = match e with
      | Event.settle i a lc sc =>
        (match w.pending[i]? with
          | some p =>
            (match resume p a lc sc w.page with
              | some r => r.1
              | none => w.page)
          | none => w.page)
      | e => (handle e w.page).1 := by
  cases e with
  | settle i a lc sc =>
    simp only [step]
    cases w.pending[i]? with
    | none => rfl
    | some p =>
      simp only
      rcases resume p a lc sc w.page with _ | ⟨page, _ | q⟩ <;> rfl
  | _ => simp only [step, spawn_page]

/-- What one event does to the four lists. -/
theorem step_lists (w : World) (e : Event) :
    (step w e).page.taskList = (match finished w e with
      | some res =>
        (match res.tasks with
          | some tasks => renderTasks tasks.items []
          | none => w.page.taskList)
      | none => w.page.taskList) ∧
    (step w e).page.approvalList = (match finished w e with
      | some res =>
        (match res.approvals with
          | some approvals => renderApprovals approvals.items []
          | none => w.page.approvalList)
      | none => w.page.approvalList) ∧
    (step w e).page.claudeLog = (match finished w e with
      | some res =>
        (match res.claudeLogs with
          | some claudeLogs => renderClaudeLogs claudeLogs.lines []
          | none => w.page.claudeLog)
      | none => w.page.claudeLog) ∧
    (step w e).page.workLog = (match finished w e with
      | some res =>
        (match res.logs with
          | some logs => renderLogs logs.lines []
          | none => written w e ++ w.page.workLog)
      | none => written w e ++ w.page.workLog) := by
  rw [step_page]
  cases e with
  | settle i a lc sc =>
    rcases hp : w.pending[i]? with _ | p
    · cases a <;> simp [finished, written, hp]
    · cases p with
      | summary => cases a <;> simp [finished, written, hp, resume]
      | tasks sm => cases a <;> simp [finished, written, hp, resume]
      | approvals sm t => cases a <;> simp [finished, written, hp, resume]
      | logs sm t ap => cases a <;> simp [finished, written, hp, resume]
      | claudeLogs sm t ap l =>
        cases a <;> simp [finished, written, hp, resume, receive_fst]
      | runOrchestrator =>
        cases a <;> simp [finished, written, hp, resume, beginRefresh, logRow_eq_stamped]
      | newTask =>
        cases a <;> simp [finished, written, hp, resume, beginRefresh, logRow_eq_stamped]
      | approve target path =>
        cases a <;> simp [finished, written, hp, resume, beginRefresh, logRow_eq_stamped]
        split_ifs <;> simp [logRow_eq_stamped]
      | reject path =>
        cases a <;> simp [finished, written, hp, resume, beginRefresh, logRow_eq_stamped]
      | openVault =>
        cases a <;> simp [finished, written, hp, resume, receive_fst, logRow_eq_stamped]
        rcases got _ with _ | d
        · simp
        · simp only
          cases truthy d.vault <;> simp [logRow_eq_stamped]
      | startClaude =>
        cases a <;> simp [finished, written, hp, resume, receive_fst, logRow_eq_stamped]
        split_ifs <;> simp [logRow_eq_stamped]
      | stopClaude =>
        cases a <;> simp [finished, written, hp, resume, receive_fst, logRow_eq_stamped]
        split_ifs <;> simp [logRow_eq_stamped]
      | submitApp =>
        cases a <;> simp [finished, written, hp, resume, receive_fst, logRow_eq_stamped]
        rcases got _ with _ | d
        · simp
        · simp only
          split_ifs
          · simp [logRow_eq_stamped]
          · cases truthy d.error <;> simp
  | approvalClick t =>
    simp only [handle, finished, written, beginRefresh]
    split_ifs <;> (try split) <;> (try split_ifs) <;> simp
  | submitApp =>
    simp only [handle, finished, written]
    split_ifs <;> simp
  | _ =>
    simp [handle, finished, written, beginRefresh, clickStartWatchers, clickStopWatchers,
      logRow_eq_stamped]

theorem run_cons (e : Event) (es : List Event) (w : World) :
    run (e :: es) w = run es (step w e) := rfl

theorem agrees_step (base : Page) (w : World) (e : Event) (g : Shown)
    (h : Agrees base w.page g) : Agrees base (step w e).page (note w e g) := by
  obtain ⟨h1, h2, h3, h4⟩ := h
  obtain ⟨s1, s2, s3, s4⟩ := step_lists w e
  rcases hf : finished w e with _ | res
  · simp only [hf] at s1 s2 s3 s4
    simp only [note, hf, Agrees]
    exact ⟨s1.trans h1, s2.trans h2, s3.trans h3, by rw [s4, h4, List.append_assoc]⟩
  · obtain ⟨sm, t, ap, l, cl⟩ := res
    simp only [hf] at s1 s2 s3 s4
    simp only [note, hf, Agrees]
    refine ⟨?_, ?_, ?_, ?_⟩
    · cases t
      · exact s1.trans h1
      · exact s1
    · cases ap
      · exact s2.trans h2
      · exact s2
    · cases cl
      · exact s3.trans h3
      · exact s3
    · cases l
      · simp only [latest]
        rw [s4, h4, List.append_assoc]
      · simpa [latest] using s4

theorem agrees_run (base : Page) (es : List Event) :
    ∀ (w : World) (g : Shown), Agrees base w.page g →
      Agrees base (run es w).page (shownAfter es w g) := by
  induction es with
  | nil =>
    intro w g h
    exact h
  | cons e es ih =>
    intro w g h
    rw [run_cons]
    exact ih (step w e) (note w e g) (agrees_step base w e g h)

/-- C2, as the code has it.  Requests settle in any order and `refresh()`
cycles overlap.  After every sequence of events the task list, the approval
list and the Claude log each show exactly the rendering of the response held by
the cycle that rendered that list last (their initial content while no cycle
has), and the work log shows the rendering of the logs response of the cycle
that rendered it last below exactly the lines written since, newest first.  In
one event, a list changes only when a cycle that fetched its endpoint finishes:
a finishing cycle whose request failed leaves the task list, the approval list
and the Claude log as they were, and the work log as it was below the lines the
event wrote. -/
theorem run_shows (es : List Event) (w0 w : World) (e : Event) :
    ((run es w0).page.taskList = (match (shownAfter es w0 Shown.start).tasks with
        | some tasks => renderTasks tasks.items []
        | none => w0.page.taskList) ∧
      (run es w0).page.approvalList = (match (shownAfter es w0 Shown.start).approvals with
        | some approvals => renderApprovals approvals.items []
        | none => w0.page.approvalList) ∧
      (run es w0).page.claudeLog = (match (shownAfter es w0 Shown.start).claudeLogs with
        | some claudeLogs => renderClaudeLogs claudeLogs.lines []
        | none => w0.page.claudeLog) ∧
      (run es w0).page.workLog = (shownAfter es w0 Shown.start).logged ++
        (match (shownAfter es w0 Shown.start).logs with
          | some logs => renderLogs logs.lines []
          | none => w0.page.workLog)) ∧
    ((step w e).page.taskList = (match finished w e with
        | some res =>
          (match res.tasks with
            | some tasks => renderTasks tasks.items []
            | none => w.page.taskList)
        | none => w.page.taskList) ∧
      (step w e).page.approvalList = (match finished w e with
        | some res =>
          (match res.approvals with
            | some approvals => renderApprovals approvals.items []
            | none => w.page.approvalList)
        | none => w.page.approvalList) ∧
      (step w e).page.claudeLog = (match finished w e with
        | some res =>
          (match res.claudeLogs with
            | some claudeLogs => renderClaudeLogs claudeLogs.lines []
            | none => w.page.claudeLog)
        | none => w.page.claudeLog) ∧
      (step w e).page.workLog = (match finished w e with
        | some res =>
          (match res.logs with
            | some logs => renderLogs logs.lines []
            | none => written w e ++ w.page.workLog)
        | none => written w e ++ w.page.workLog)) :=
  ⟨agrees_run w0.page es w0 Shown.start ⟨rfl, rfl, rfl, rfl⟩, step_lists w e⟩

/-- C2 fails as stated.  In the run `overlap` the most recent successfully
fetched tasks response is `[sampleItem, newItem]`, but the task list ends on the
rendering of `[sampleItem]`, the response of the cycle that finished last.
After a cycle that fetched the log line `x` and a click on start-watchers the
work log is not the rendering of that response; and a cycle whose logs request
is lost does not leave the work log as it was. -/
theorem lists_not_latest_fetched :
    (lastFetched fetchedTasks overlap blankWorld none = some ⟨[sampleItem, newItem]⟩ ∧
      (run overlap blankWorld).page.taskList = renderTasks [sampleItem] [] ∧
      renderTasks [sampleItem] [] ≠ renderTasks [sampleItem, newItem] []) ∧
    (lastFetched fetchedLogs renderThenClick blankWorld none = some ⟨["x"]⟩ ∧
      (run renderThenClick blankWorld).page.workLog
        = [⟨"p", "", Body.text "[09:01] Watchers started."⟩, ⟨"p", "", Body.text "x"⟩] ∧
      renderLogs ["x"] [] = [⟨"p", "", Body.text "x"⟩]) ∧
    ((run lostLogs blankWorld).page.workLog
        = [⟨"p", "", Body.text "[09:00] API error: /api/logs"⟩] ∧
      blankWorld.page.workLog = []) := by
  refine ⟨⟨?_, ?_, ?_⟩, ⟨?_, ?_, ?_⟩, ⟨?_, rfl⟩⟩
  · simp [lastFetched, overlap, blankWorld, step, spawn, handle, beginRefresh, resume,
      fetchedTasks, latest, got, tryFetch, okReply]
  · simp [run, overlap, blankWorld, step, spawn, handle, beginRefresh, resume, receive_fst,
      got, tryFetch, okReply]
  · intro h
    have h2 := congrArg List.length h
    simp [renderTasks_length] at h2
  · simp [lastFetched, renderThenClick, cycleEvents, cycleWith, blankWorld, step, spawn, handle,
      beginRefresh, resume, fetchedLogs, latest, got, tryFetch, okReply]
  · simp [run, renderThenClick, cycleEvents, cycleWith, blankWorld, step, spawn, handle,
      beginRefresh, resume, receive_fst, got, tryFetch, okReply, clickStartWatchers,
      renderLogs, appendChild, clearChildren, logRow]
  · simp [renderLogs, appendChild, clearChildren]
  · simp [run, lostLogs, cycleEvents, cycleWith, blankWorld, step, spawn, handle,
      beginRefresh, resume, receive_fst, got, tryFetch, okReply, lostReply, errorRows,
      apiErrorRow, blankPage]

/-! ## Watchers -/

/-- C8: from a page whose watcher label reads `Idle` with the flag off, a click
on start-watchers and then one on stop-watchers make the label read `Idle`,
`Running`, `Idle` and the flag `false`, `true`, `false`, and each click puts
exactly one new entry at the head of the work log: a `p` of text
`[clock] Watchers started.`, then a `p` of text `[clock] Watchers stopped.`. -/
theorem watchers_start_stop (s : Page) (lc1 sc1 lc2 sc2 : String)
    (hlabel : s.watcherStatus = "Idle") (hflag : s.watchersRunning = false) :
    (s.watcherStatus = "Idle" ∧
      (clickStartWatchers lc1 sc1 s).watcherStatus = "Running" ∧
      (clickStopWatchers lc2 sc2 (clickStartWatchers lc1 sc1 s)).watcherStatus = "Idle") ∧
    (s.watchersRunning = false ∧
      (clickStartWatchers lc1 sc1 s).watchersRunning = true ∧
      (clickStopWatchers lc2 sc2 (clickStartWatchers lc1 sc1 s)).watchersRunning = false) ∧
    (clickStartWatchers lc1 sc1 s).workLog =
      ⟨"p", "", Body.text ("[" ++ lc1 ++ "] Watchers started.")⟩ :: s.workLog ∧
    (clickStopWatchers lc2 sc2 (clickStartWatchers lc1 sc1 s)).workLog =
      ⟨"p", "", Body.text ("[" ++ lc2 ++ "] Watchers stopped.")⟩ ::
        ⟨"p", "", Body.text ("[" ++ lc1 ++ "] Watchers started.")⟩ :: s.workLog := by
  have h1 : "[" ++ lc1 ++ "] " ++ "Watchers started." = "[" ++ lc1 ++ "] Watchers started." := by
    rw [String.append_assoc]
    rfl
  have h2 : "[" ++ lc2 ++ "] " ++ "Watchers stopped." = "[" ++ lc2 ++ "] Watchers stopped." := by
    rw [String.append_assoc]
    rfl
  refine ⟨⟨hlabel, rfl, rfl⟩, ⟨hflag, rfl, rfl⟩, ?_, ?_⟩
  · simp [clickStartWatchers, logRow, h1]
  · simp [clickStartWatchers, clickStopWatchers, logRow, h1, h2]

theorem startup_watcher (c : Cycle) (s : Page) :
    (startup c s).watcherStatus = "Idle" ∧ (startup c s).watchersRunning = false := by
  unfold startup
  rw [refresh_eq]
  exact ⟨rfl, rfl⟩

/-- The work log that startup leaves from the blank page when the five requests
are answered with empty lists. -/
theorem startup_workLog :
    (startup (cycleWith (okReply "09:00" ⟨[]⟩) (okReply "09:00" ⟨[]⟩) (okReply "09:00" ⟨[]⟩))
      blankPage).workLog = [⟨"p", "", Body.text "[--:--] No logs yet."⟩] := by
  unfold startup
  rw [refresh_workLog]
  simp [cycleWith, got, tryFetch, okReply, renderLogs]

/-- Witness of C8: the page that startup leaves from the blank page, the five
requests answered with empty lists; the label ends on `Idle`, the flag goes
`true` then `false`, and the work log gains the two entries. -/
theorem watchers_start_stop_witness :
    (clickStopWatchers "09:02" "09:02" (clickStartWatchers "09:01" "09:01"
      (startup (cycleWith (okReply "09:00" ⟨[]⟩) (okReply "09:00" ⟨[]⟩) (okReply "09:00" ⟨[]⟩))
        blankPage))).watcherStatus = "Idle" ∧
    (clickStartWatchers "09:01" "09:01"
      (startup (cycleWith (okReply "09:00" ⟨[]⟩) (okReply "09:00" ⟨[]⟩) (okReply "09:00" ⟨[]⟩))
        blankPage)).watchersRunning = true ∧
    (clickStopWatchers "09:02" "09:02" (clickStartWatchers "09:01" "09:01"
      (startup (cycleWith (okReply "09:00" ⟨[]⟩) (okReply "09:00" ⟨[]⟩) (okReply "09:00" ⟨[]⟩))
        blankPage))).workLog =
      [⟨"p", "", Body.text "[09:02] Watchers stopped."⟩,
       ⟨"p", "", Body.text "[09:01] Watchers started."⟩,
       ⟨"p", "", Body.text "[--:--] No logs yet."⟩] := by
  have h := watchers_start_stop
    (startup (cycleWith (okReply "09:00" ⟨[]⟩) (okReply "09:00" ⟨[]⟩) (okReply "09:00" ⟨[]⟩))
      blankPage) "09:01" "09:01" "09:02" "09:02"
    (startup_watcher _ _).1 (startup_watcher _ _).2
  refine ⟨h.1.2.2, h.2.1.2.1, ?_⟩
  rw [h.2.2.2, startup_workLog]
  rfl

/-! ## The create-app form -/

theorem trimChars_of_all (l : List Char) (h : l.all isTrimChar = true) : trimChars l = [] := by
  have h1 : l.dropWhile isTrimChar = [] := by
    rw [List.dropWhile_eq_nil_iff]
    simpa using h
  simp [trimChars, h1]

theorem jsTrim_of_all (v : String) (h : v.data.all isTrimChar = true) : jsTrim v = "" := by
  unfold jsTrim
  rw [trimChars_of_all _ h]

/-- C7: when every character of the language field, or every character of the
name field, is white space (the field may be empty), the submit handler issues
no request, sets the app status to `Language and name are required.` in the
error colour `var(--accent)`, and leaves the name and instruction fields as
they are. -/
theorem submit_requires_language_and_name (post : Reply CreateResult) (logClock : String)
    (s : Page)
    (h : s.appLanguage.data.all isTrimChar = true ∨ s.appName.data.all isTrimChar = true) :
    (submitAppForm post logClock s).requests = s.requests ∧
    (submitAppForm post logClock s).appStatus = "Language and name are required." ∧
    (submitAppForm post logClock s).appStatusColor = "var(--accent)" ∧
    (submitAppForm post logClock s).appName = s.appName ∧
    (submitAppForm post logClock s).appInstruction = s.appInstruction := by
  have hg : jsTrim s.appLanguage = "" ∨ jsTrim s.appName = "" :=
    h.imp (jsTrim_of_all _) (jsTrim_of_all _)
  have he : submitAppForm post logClock s
      = setAppStatus "Language and name are required." false s := by
    simp only [submitAppForm, hg, if_true]
  rw [he]
  exact ⟨rfl, rfl, rfl, rfl, rfl⟩

/-- Witness of C7: the language field holds two blanks. -/
theorem submit_requires_language_and_name_witness :
    (submitAppForm (okReply "09:00" ⟨true, some "Needs_Action/t.md", none⟩) "09:00"
        formPage).requests = [] ∧
    (submitAppForm (okReply "09:00" ⟨true, some "Needs_Action/t.md", none⟩) "09:00"
        formPage).appName = "notes" :=
  have h := submit_requires_language_and_name
    (okReply "09:00" ⟨true, some "Needs_Action/t.md", none⟩) "09:00" formPage
    (Or.inl (by decide))
  ⟨h.1, h.2.2.2.1⟩

/-! ## Mutating actions -/

/-- C4, as the code has it.  The handlers of run-orchestrator and new-task, and
the handler of the approval list for a click on an Approve or a Reject button
with a path, issue their POST and then run `refresh()`: the page they leave is
a cycle applied to a page on which exactly the POST was added to the requests,
so the requests issued are the POST followed by the five GETs.  The handlers of
start-claude and stop-claude issue their POST and no other request; they do not
call `refresh()`, and they write the Claude status label themselves when the
answer says `ok`, leaving it alone otherwise. -/
theorem mutating_actions (s : Page) (post : Reply Unit) (ack : Reply Ack) (other : Reply Unit)
    (logClock syncClock otherClock : String) (c : Cycle) (path : String) (hpath : path ≠ "") :
    ((∃ mid, clickRunOrchestrator post logClock syncClock c s = refresh c mid ∧
        mid.requests = s.requests ++ [⟨"POST", "/api/run-orchestrator", Payload.emptyObject⟩]) ∧
      (clickRunOrchestrator post logClock syncClock c s).requests =
        s.requests ++ [⟨"POST", "/api/run-orchestrator", Payload.emptyObject⟩]
          ++ refreshRequests) ∧
    ((∃ mid, clickNewTask post logClock c s = refresh c mid ∧
        mid.requests = s.requests ++ [⟨"POST", "/api/new-task",
          Payload.newTask "Draft reply for new inbound Gmail inquiry" "email"
            "Draft a polite reply and request approval before sending."⟩]) ∧
      (clickNewTask post logClock c s).requests =
        s.requests ++ [⟨"POST", "/api/new-task",
          Payload.newTask "Draft reply for new inbound Gmail inquiry" "email"
            "Draft a polite reply and request approval before sending."⟩] ++ refreshRequests) ∧
    ((∃ mid, clickApprovalList (approveButton path) post logClock other otherClock c s
          = refresh c mid ∧
        mid.requests = s.requests ++ [⟨"POST", "/api/approve", Payload.path path⟩]) ∧
      (clickApprovalList (approveButton path) post logClock other otherClock c s).requests =
        s.requests ++ [⟨"POST", "/api/approve", Payload.path path⟩] ++ refreshRequests) ∧
    ((∃ mid, clickApprovalList (rejectButton path) other otherClock post logClock c s
          = refresh c mid ∧
        mid.requests = s.requests ++ [⟨"POST", "/api/reject", Payload.path path⟩]) ∧
      (clickApprovalList (rejectButton path) other otherClock post logClock c s).requests =
        s.requests ++ [⟨"POST", "/api/reject", Payload.path path⟩] ++ refreshRequests) ∧
    ((clickStartClaude ack logClock s).requests =
        s.requests ++ [⟨"POST", "/api/claude/start", Payload.emptyObject⟩] ∧
      (clickStartClaude ack logClock s).claudeStatus =
        if ackOk (got ack) then "Running" else s.claudeStatus) ∧
    ((clickStopClaude ack logClock s).requests =
        s.requests ++ [⟨"POST", "/api/claude/stop", Payload.emptyObject⟩] ∧
      (clickStopClaude ack logClock s).claudeStatus =
        if ackOk (got ack) then "Stopped" else s.claudeStatus) := by
  have happ : clickApprovalList (approveButton path) post logClock other otherClock c s
      = refresh c (logLine logClock ("Approved: " ++ path)
          (fetchJSON "/api/approve" ⟨"POST", Payload.path path⟩ post s).2) := by
    simp [clickApprovalList, approveButton, hpath]
  have hrej : clickApprovalList (rejectButton path) other otherClock post logClock c s
      = refresh c (logLine logClock ("Rejected: " ++ path)
          (fetchJSON "/api/reject" ⟨"POST", Payload.path path⟩ post s).2) := by
    simp [clickApprovalList, rejectButton, hpath]
  refine ⟨⟨⟨_, rfl, ?_⟩, ?_⟩, ⟨⟨_, rfl, ?_⟩, ?_⟩, ⟨⟨_, happ, ?_⟩, ?_⟩, ⟨⟨_, hrej, ?_⟩, ?_⟩,
    ⟨?_, ?_⟩, ⟨?_, ?_⟩⟩
  · simp
  · simp [clickRunOrchestrator, refresh_requests]
  · simp
  · simp [clickNewTask, refresh_requests]
  · simp
  · rw [happ, refresh_requests]
    simp
  · simp
  · rw [hrej, refresh_requests]
    simp
  · simp only [clickStartClaude]
    split_ifs <;> simp
  · simp only [clickStartClaude, fetchJSON_fst]
    split_ifs <;> simp [fetchJSON_snd, logLine]
  · simp only [clickStopClaude]
    split_ifs <;> simp
  · simp only [clickStopClaude, fetchJSON_fst]
    split_ifs <;> simp [fetchJSON_snd, logLine]

/-- Witness of C4: a click on the Approve button of `Pending/a.md`. -/
theorem mutating_actions_witness :
    (clickApprovalList (approveButton "Pending/a.md") (okReply "09:00" ()) "09:00"
        (okReply "09:00" ()) "09:00"
        (cycleWith (okReply "09:00" ⟨[]⟩) (okReply "09:00" ⟨[]⟩) (okReply "09:00" ⟨[]⟩))
        blankPage).requests =
      blankPage.requests ++ [⟨"POST", "/api/approve", Payload.path "Pending/a.md"⟩]
        ++ refreshRequests :=
  (mutating_actions blankPage (okReply "09:00" ()) (okReply "09:00" ⟨true⟩) (okReply "09:00" ())
    "09:00" "09:00" "09:00"
    (cycleWith (okReply "09:00" ⟨[]⟩) (okReply "09:00" ⟨[]⟩) (okReply "09:00" ⟨[]⟩))
    "Pending/a.md" (by decide)).2.2.1.2

/-- C4 fails as stated for start-claude and stop-claude: on the blank page, with
the backend answering `ok`, each handler issues its POST and nothing else,
where the handler of new-task issues its POST and the five GETs of a cycle. -/
theorem claude_handlers_do_not_refresh :
    (clickStartClaude (okReply "09:00" ⟨true⟩) "09:00" blankPage).requests =
      [⟨"POST", "/api/claude/start", Payload.emptyObject⟩] ∧
    (clickStopClaude (okReply "09:00" ⟨true⟩) "09:00" blankPage).requests =
      [⟨"POST", "/api/claude/stop", Payload.emptyObject⟩] ∧
    (clickNewTask (okReply "09:00" ()) "09:00"
        (cycleWith (okReply "09:00" ⟨[]⟩) (okReply "09:00" ⟨[]⟩) (okReply "09:00" ⟨[]⟩))
        blankPage).requests.length = 6 := by
  refine ⟨?_, ?_, ?_⟩
  · simp only [clickStartClaude]
    split_ifs <;> simp [blankPage]
  · simp only [clickStopClaude]
    split_ifs <;> simp [blankPage]
  · simp [clickNewTask, refresh_requests, refreshRequests, blankPage]

end Dashboard
